import Mathlib

/-!
# FastOrder backend — order lifecycle and ticket redemption, shallow embedding

This file embeds the order/payment/ticket state machine of the FastOrder
Express backend (`index.js`, both the current revision with the VNPAY
integration and the older revision kept alongside it) as pure Lean
functions over an explicit relational state, and proves properties of the
endpoints that drive the lifecycle.

Conventions of the embedding:
* Each MySQL table is a `List` of row structures; `INSERT` appends,
  `UPDATE ... WHERE` maps over the list, `DELETE ... WHERE` filters it.
  Auto-increment ids are modelled by explicit counters in the state.
* `NOW()` timestamps and Cloudinary/JWT plumbing are not read by any of the
  modelled logic and are omitted from the row structures.
* Randomness (`crypto.randomBytes`) and clock values (`Date.now()`) are
  external inputs; the operations take the generated string as an argument.
* HMAC-SHA512 (`crypto.createHmac('sha512', ...)`) is an external crypto
  primitive; it is passed in as an abstract function argument
  `hmacSha512 : String → String → String` (key, message ↦ hex digest).
* JS falsiness on the numeric/string request fields is modelled as
  `= 0` / `= ""`; JSON `null` values are modelled with `Option`.
* Each handler returns its HTTP outcome together with the post-state.
-/

namespace FastOrder

/-- A row of the `food` table (fields read by the modelled endpoints). -/
structure Food where
  id : Nat
  name : String
  price : Int
  category_id : Nat
deriving Repr, DecidableEq

/-- A row of the `orders` table. -/
structure Order where
  id : Nat
  user_id : Nat
  total_price : Int
  status : String
deriving Repr, DecidableEq

/-- A row of the `order_items` table. -/
structure OrderItem where
  order_id : Nat
  food_id : Nat
  quantity : Int
  unit_price : Int
deriving Repr, DecidableEq

/-- A row of the `payments` table. -/
structure Payment where
  payment_id : Nat
  order_id : Nat
  method : String
  amount : Int
  status : String
  transaction_id : Option String
deriving Repr, DecidableEq

/-- A row of the `tickets` table. -/
structure Ticket where
  id : Nat
  order_id : Nat
  ticket_code : String
  is_used : Bool
deriving Repr, DecidableEq

/-- The relational state: the five tables touched by the order lifecycle,
plus the auto-increment counters MySQL keeps for them. -/
structure DB where
  foods : List Food
  orders : List Order
  order_items : List OrderItem
  payments : List Payment
  tickets : List Ticket
  nextFoodId : Nat
  nextOrderId : Nat
  nextPaymentId : Nat
  nextTicketId : Nat
deriving Repr, DecidableEq

/-- The empty database, with MySQL auto-increment counters at 1. -/
def initDB : DB :=
  { foods := [], orders := [], order_items := [], payments := [], tickets := []
    nextFoodId := 1, nextOrderId := 1, nextPaymentId := 1, nextTicketId := 1 }

/-- Outcome of a handler: a JSON success body, or `res.status(n).json(msg)`. -/
inductive ApiOut (α : Type) where
  | ok (val : α)
  | err (status : Nat) (msg : String)
deriving Repr, DecidableEq

/-- One entry of the `items` array of `POST /api/orders`. -/
structure ItemReq where
  food_id : Nat
  quantity : Int
deriving Repr, DecidableEq

/-- Success body of `POST /api/orders`. -/
structure CreateOrderRes where
  order_id : Nat
  total_price : Int
  status : String
  ticket_code : String
deriving Repr, DecidableEq

/-- Success body of `POST /api/payments`. -/
structure PaymentRes where
  payment_id : Nat
  order_id : Nat
  amount : Int
  method : String
  status : String
  transaction_id : Option String
deriving Repr, DecidableEq

/-- `SELECT * FROM payments WHERE order_id = ?` (in table order). -/
def paymentsFor (db : DB) (order_id : Nat) : List Payment :=
  db.payments.filter (fun p => p.order_id == order_id)

/-- `SELECT status FROM orders WHERE id = ?` (first row). -/
def orderStatusOf (db : DB) (order_id : Nat) : Option String :=
  (db.orders.find? (fun o => o.id == order_id)).map Order.status

/-- `POST /api/foods` (admin): after the role check, rejects falsy
`name`/`price`/`category_id`, then inserts the row. -/
def addFood (db : DB) (name : String) (price : Int) (category_id : Nat) :
    ApiOut Nat × DB :=
  if name == "" || price == 0 || category_id == 0 then
    (.err 400 "Name, price, and category_id are required", db)
  else
    (.ok db.nextFoodId,
      { db with
        foods := db.foods ++ [{ id := db.nextFoodId, name, price, category_id }]
        nextFoodId := db.nextFoodId + 1 })

/-- `PUT /api/foods/:id` (admin): validates the same fields, then
`UPDATE food SET ... WHERE id = ?`; 404 when no row matched. -/
def updateFood (db : DB) (id : Nat) (name : String) (price : Int)
    (category_id : Nat) : ApiOut Nat × DB :=
  if name == "" || price == 0 || category_id == 0 then
    (.err 400 "Name, price, and category_id are required", db)
  else if db.foods.find? (fun f => f.id == id) = none then
    (.err 404 "Food not found", db)
  else
    (.ok id,
      { db with
        foods := db.foods.map (fun f =>
          if f.id == id then { f with name, price, category_id } else f) })

/-- `DELETE /api/foods/:id` (admin): `DELETE FROM food WHERE id = ?`;
404 when no row matched. -/
def deleteFood (db : DB) (id : Nat) : ApiOut String × DB :=
  if db.foods.find? (fun f => f.id == id) = none then
    (.err 404 "Food not found", db)
  else
    (.ok "Food deleted successfully",
      { db with foods := db.foods.filter (fun f => !(f.id == id)) })

/-- The price-collecting loop of the current `POST /api/orders` handler:
for each item, `SELECT price FROM food WHERE id = ?`; the first unknown
`food_id` aborts with its id. No quantity validation is performed here. -/
def priceItems (db : DB) : List ItemReq → Except Nat (List (ItemReq × Int))
  | [] => .ok []
  | it :: rest =>
    match db.foods.find? (fun f => f.id == it.food_id) with
    | none => .error it.food_id
    | some f => (priceItems db rest).map (fun tl => (it, f.price) :: tl)

/-- `POST /api/orders` (current revision, index.js lines around 311–361):
rejects an empty `items` array, prices every item off the catalog
(404 on an unknown food id, before any write), sums
`unit_price * quantity` into `total_price`, then inserts the order
(status `pending`), its line items with the snapshotted `unit_price`, and a
ticket whose random code is the `ticket_code` argument (`is_used = false`). -/
def createOrder (db : DB) (user_id : Nat) (items : List ItemReq)
    (ticket_code : String) : ApiOut CreateOrderRes × DB :=
  if items.isEmpty then
    (.err 400 "Items are required", db)
  else
    match priceItems db items with
    | .error fid =>
        (.err 404 ("Food with id " ++ toString fid ++ " not found"), db)
    | .ok priced =>
        let total_price :=
          priced.foldl (fun acc p => acc + p.2 * p.1.quantity) 0
        let oid := db.nextOrderId
        (.ok { order_id := oid, total_price, status := "pending", ticket_code },
          { db with
            orders := db.orders ++
              [{ id := oid, user_id, total_price, status := "pending" }]
            order_items := db.order_items ++
              priced.map (fun p =>
                { order_id := oid, food_id := p.1.food_id
                  quantity := p.1.quantity, unit_price := p.2 })
            tickets := db.tickets ++
              [{ id := db.nextTicketId, order_id := oid, ticket_code
                 is_used := false }]
            nextOrderId := oid + 1
            nextTicketId := db.nextTicketId + 1 })

/-- The validating loop of the older `POST /api/orders` handler: each item
must have a truthy `food_id` and `quantity > 0` (400 otherwise), and its
food must exist (400 with `Food <id> not found` otherwise). -/
def priceItemsVariant (db : DB) :
    List ItemReq → Except (Nat × String) (List (ItemReq × Int))
  | [] => .ok []
  | it :: rest =>
    if it.food_id == 0 || it.quantity ≤ 0 then
      .error (400, "Each item must have food_id and quantity > 0")
    else
      match db.foods.find? (fun f => f.id == it.food_id) with
      | none => .error (400, "Food " ++ toString it.food_id ++ " not found")
      | some f => (priceItemsVariant db rest).map (fun tl => (it, f.price) :: tl)

/-- `POST /api/orders` (older revision, lines around 1410–1461): same shape
as `createOrder` but with per-item quantity validation, unknown foods
reported with status 400, and the ticket row inserted without an explicit
`is_used` value (the column default `false`). -/
def createOrderVariant (db : DB) (user_id : Nat) (items : List ItemReq)
    (ticket_code : String) : ApiOut CreateOrderRes × DB :=
  if items.isEmpty then
    (.err 400 "Items are required and must be a non-empty array", db)
  else
    match priceItemsVariant db items with
    | .error e => (.err e.1 e.2, db)
    | .ok priced =>
        let total_price :=
          priced.foldl (fun acc p => acc + p.2 * p.1.quantity) 0
        let oid := db.nextOrderId
        (.ok { order_id := oid, total_price, status := "pending", ticket_code },
          { db with
            orders := db.orders ++
              [{ id := oid, user_id, total_price, status := "pending" }]
            order_items := db.order_items ++
              priced.map (fun p =>
                { order_id := oid, food_id := p.1.food_id
                  quantity := p.1.quantity, unit_price := p.2 })
            tickets := db.tickets ++
              [{ id := db.nextTicketId, order_id := oid, ticket_code
                 is_used := false }]
            nextOrderId := oid + 1
            nextTicketId := db.nextTicketId + 1 })

/-- The join rows of `POST /api/tickets/verify`:
`SELECT t.*, p.status FROM tickets t JOIN payments p ON t.order_id =
p.order_id WHERE t.ticket_code = ? AND t.is_used = false`. Rows follow
ticket order; for a ticket the first matching payment is paired (payments
for an order are unique in every state the handler itself produces). -/
def verifyRows (db : DB) (ticket_code : String) : List (Ticket × Payment) :=
  db.tickets.filterMap (fun t =>
    if t.ticket_code == ticket_code && !t.is_used then
      (paymentsFor db t.order_id).head?.map (fun p => (t, p))
    else none)

/-- `POST /api/tickets/verify` (admin): looks up the unused ticket joined
with its payment; rejects when the join is empty or the payment is not
`completed`; otherwise `UPDATE tickets SET is_used = true WHERE
ticket_code = ?`. The order's own status is never consulted. -/
def ticketsVerify (db : DB) (ticket_code : String) : ApiOut Nat × DB :=
  if ticket_code == "" then
    (.err 400 "Ticket code is required", db)
  else
    match (verifyRows db ticket_code).head? with
    | none => (.err 400 "Ticket not found or already used", db)
    | some (t, p) =>
      if !(p.status == "completed") then
        (.err 400 "Payment not completed. Please complete payment before receiving your order.", db)
      else
        (.ok t.order_id,
          { db with
            tickets := db.tickets.map (fun x =>
              if x.ticket_code == ticket_code then { x with is_used := true }
              else x) })

/-- `POST /api/payments/confirm` (admin): finds the cash payment by id
(404 otherwise), rejects one already `completed`, else
`UPDATE payments SET status = 'completed' WHERE payment_id = ?`. -/
def confirmCashPayment (db : DB) (payment_id : Nat) : ApiOut String × DB :=
  if payment_id == 0 then
    (.err 400 "Payment ID is required", db)
  else
    match db.payments.find? (fun p =>
        p.payment_id == payment_id && p.method == "cash") with
    | none => (.err 404 "Payment not found or not a cash payment", db)
    | some p =>
      if p.status == "completed" then
        (.err 400 "Payment already completed", db)
      else
        (.ok "Payment confirmed successfully",
          { db with
            payments := db.payments.map (fun x =>
              if x.payment_id == payment_id then { x with status := "completed" }
              else x) })

/-- `PUT /api/admin/orders/:orderId/status` (admin): the status must be one
of `pending`/`confirmed`/`completed`; 404 when the order is absent; else
`UPDATE orders SET status = ? WHERE id = ?`. -/
def updateOrderStatus (db : DB) (order_id : Nat) (status : String) :
    ApiOut String × DB :=
  if !(status == "pending" || status == "confirmed" || status == "completed") then
    (.err 400 "Invalid status", db)
  else if db.orders.find? (fun o => o.id == order_id) = none then
    (.err 404 "Order not found", db)
  else
    (.ok "Order status updated successfully",
      { db with
        orders := db.orders.map (fun o =>
          if o.id == order_id then { o with status } else o) })

/-- `DELETE /api/orders/:orderId/cancel`: only the owner's `pending` order
may be cancelled; cancellation hard-deletes the ticket, line items,
payment and order rows for that order id. -/
def cancelOrder (db : DB) (user_id : Nat) (order_id : Nat) :
    ApiOut String × DB :=
  match db.orders.find? (fun o => o.id == order_id && o.user_id == user_id) with
  | none => (.err 404 "Order not found or not authorized", db)
  | some o =>
    if !(o.status == "pending") then
      (.err 400 "Only pending orders can be cancelled", db)
    else
      (.ok "Order cancelled successfully",
        { db with
          tickets := db.tickets.filter (fun t => !(t.order_id == order_id))
          order_items := db.order_items.filter (fun i => !(i.order_id == order_id))
          payments := db.payments.filter (fun p => !(p.order_id == order_id))
          orders := db.orders.filter (fun x => !(x.id == order_id)) })

/-- `DELETE /api/orders/:orderId` (older soft-cancel route): after the
ownership check, `UPDATE orders SET status = 'cancelled' WHERE id = ?`,
with no status precondition. -/
def softCancelOrder (db : DB) (user_id : Nat) (order_id : Nat) :
    ApiOut String × DB :=
  match db.orders.find? (fun o => o.id == order_id && o.user_id == user_id) with
  | none => (.err 404 "Order not found or not authorized", db)
  | some _ =>
    (.ok "Order cancelled successfully",
      { db with
        orders := db.orders.map (fun o =>
          if o.id == order_id then { o with status := "cancelled" } else o) })

/-- The tail of the current `POST /api/payments` handler, after the
duplicate-payment handling: the method branch, payment insert, cash status
flip, and ticket backfill. For `online` the gateway transaction reference
is `ORDER_<order_id>_<Date.now()>`; the clock value is the `ts` argument,
and the redirect-URL construction (a pure function of the same parameters,
modelled by `vnpSignData` below) does not touch the tables and is elided
from the result. -/
def recordPaymentInsert (db : DB) (order_id : Nat) (method : String)
    (amount : Int) (ts : String) : ApiOut PaymentRes × DB :=
  let transaction_id : Option String :=
    if method == "online" then
      some ("ORDER_" ++ toString order_id ++ "_" ++ ts)
    else none
  if !(method == "cash" || method == "online") then
    (.err 400 "Invalid payment method", db)
  else
    let pid := db.nextPaymentId
    let db2 : DB :=
      { db with
        payments := db.payments ++
          [{ payment_id := pid, order_id, method, amount
             status := "pending", transaction_id }]
        nextPaymentId := pid + 1 }
    let db3 : DB :=
      if method == "cash" then
        { db2 with
          orders := db2.orders.map (fun o =>
            if o.id == order_id then { o with status := "confirmed" } else o) }
      else db2
    let db4 : DB :=
      if (db3.tickets.filter (fun t => t.order_id == order_id)).isEmpty then
        { db3 with
          tickets := db3.tickets ++
            [{ id := db3.nextTicketId, order_id
               ticket_code := "TICKET_" ++ toString order_id ++ "_" ++ ts
               is_used := false }]
          nextTicketId := db3.nextTicketId + 1 }
      else db3
    (.ok { payment_id := pid, order_id, amount, method, status := "pending"
           transaction_id }, db4)

/-- `POST /api/payments` (current revision, lines around 799–991): input
validation, ownership check, duplicate-payment check on the first existing
payment row (conflict when it is `completed`, purge of all of the order's
payment rows when it is `pending`/`failed`/`cancelled`), then
`recordPaymentInsert`. -/
def recordPayment (db : DB) (user_id : Nat) (order_id : Nat) (method : String)
    (amount : Int) (ts : String) : ApiOut PaymentRes × DB :=
  if order_id == 0 || method == "" || amount == 0 then
    (.err 400 "order_id, method, and amount are required", db)
  else if amount ≤ 0 then
    (.err 400 "Amount must be greater than 0", db)
  else
    match db.orders.find? (fun o => o.id == order_id && o.user_id == user_id) with
    | none => (.err 404 "Order not found or not authorized", db)
    | some _ =>
      match (paymentsFor db order_id).head? with
      | some p =>
        if p.status == "completed" then
          (.err 400 "Payment already completed for this order", db)
        else
          let db1 : DB :=
            if p.status == "pending" || p.status == "failed" ||
                p.status == "cancelled" then
              { db with
                payments := db.payments.filter (fun q => !(q.order_id == order_id)) }
            else db
          recordPaymentInsert db1 order_id method amount ts
      | none => recordPaymentInsert db order_id method amount ts

/-- `POST /api/payments` (older revision, lines around 1517–1554): after
the validation and ownership check it inserts a pending payment with no
duplicate check at all (`transaction_id` is a random hex string for
non-cash methods, the `txn` argument) and unconditionally sets the order
status to `confirmed`. -/
def recordPaymentVariant (db : DB) (user_id : Nat) (order_id : Nat)
    (method : String) (amount : Int) (txn : String) : ApiOut PaymentRes × DB :=
  if order_id == 0 || method == "" || amount == 0 then
    (.err 400 "order_id, method, and amount are required", db)
  else
    match db.orders.find? (fun o => o.id == order_id && o.user_id == user_id) with
    | none => (.err 404 "Order not found or not authorized", db)
    | some _ =>
      let transaction_id : Option String :=
        if method == "cash" then none else some txn
      let pid := db.nextPaymentId
      (.ok { payment_id := pid, order_id, amount, method, status := "pending"
             transaction_id },
        { db with
          payments := db.payments ++
            [{ payment_id := pid, order_id, method, amount
               status := "pending", transaction_id }]
          nextPaymentId := pid + 1
          orders := db.orders.map (fun o =>
            if o.id == order_id then { o with status := "confirmed" } else o) })

/-- The join rows of `POST /api/admin/scan-qr`:
`SELECT t.*, o.status FROM tickets t JOIN orders o ON t.order_id = o.id
WHERE t.ticket_code = ?`. Rows follow ticket order; order ids are unique
in every state the handlers produce, so `find?` models the join. -/
def scanRows (db : DB) (ticket_code : String) : List (Ticket × Order) :=
  db.tickets.filterMap (fun t =>
    if t.ticket_code == ticket_code then
      (db.orders.find? (fun o => o.id == t.order_id)).map (fun o => (t, o))
    else none)

/-- `POST /api/admin/scan-qr` (admin): dispatches on the joined order
status: used ticket or `scanned` order → "already used"; `pending` /
`confirmed` → their dedicated messages; `completed` → atomically set the
order to `scanned` and the ticket (by its id) to used. -/
def scanQr (db : DB) (ticket_code : String) : ApiOut String × DB :=
  if ticket_code == "" then
    (.err 400 "Ticket code is required", db)
  else
    match (scanRows db ticket_code).head? with
    | none => (.err 404 "Ticket not found", db)
    | some (t, o) =>
      if t.is_used || o.status == "scanned" then
        (.err 400 "Mã đã qua sử dụng. Vui lòng đặt đơn hàng mới.", db)
      else if o.status == "pending" then
        (.err 400 "Đơn hàng của bạn chưa được xác nhận.", db)
      else if o.status == "confirmed" then
        (.err 400 "Vui lòng thanh toán trước khi nhận đồ ăn.", db)
      else if o.status == "completed" then
        (.ok "Xác nhận thành công, chúc quý khách ngon miệng!",
          { db with
            orders := db.orders.map (fun x =>
              if x.id == t.order_id then { x with status := "scanned" } else x)
            tickets := db.tickets.map (fun x =>
              if x.id == t.id then { x with is_used := true } else x) })
      else
        (.err 400 "Invalid order status", db)

/-! ## VNPAY signature construction (`createVnpaySignature` and the
`/api/vnpay/return` callback). Request parameters are association lists
`List (String × Option String)`, `none` modelling JSON `null`; keys are
unique, as in a JS object. -/

/-- Uppercase hex digit. -/
def hexDigitUpper (n : Nat) : Char :=
  if n < 10 then Char.ofNat (48 + n) else Char.ofNat (55 + n)

/-- `%XX` percent-escape of one byte, uppercase as `encodeURIComponent`
produces. -/
def percentByte (b : Nat) : String :=
  String.mk [Char.ofNat 37, hexDigitUpper ((b / 16) % 16), hexDigitUpper (b % 16)]

/-- UTF-8 bytes of one code point. -/
def utf8Bytes (c : Char) : List Nat :=
  let n := c.toNat
  if n < 128 then [n]
  else if n < 2048 then
    [192 + n / 64, 128 + n % 64]
  else if n < 65536 then
    [224 + n / 4096, 128 + (n / 64) % 64, 128 + n % 64]
  else
    [240 + n / 262144, 128 + (n / 4096) % 64, 128 + (n / 64) % 64, 128 + n % 64]

/-- The characters `encodeURIComponent` leaves unescaped:
alphanumerics and `- _ . ! ~ * ' ( )` (39 is the apostrophe). -/
def uriUnescaped (c : Char) : Bool :=
  (65 ≤ c.toNat && c.toNat ≤ 90) || (97 ≤ c.toNat && c.toNat ≤ 122) ||
  (48 ≤ c.toNat && c.toNat ≤ 57) ||
  c == Char.ofNat 45 || c == Char.ofNat 95 || c == Char.ofNat 46 ||
  c == Char.ofNat 33 || c == Char.ofNat 126 || c == Char.ofNat 42 ||
  c == Char.ofNat 39 || c == Char.ofNat 40 || c == Char.ofNat 41

/-- JavaScript `encodeURIComponent`: percent-escapes the UTF-8 bytes of
every character outside the unescaped set. -/
def encodeURIComponent (s : String) : String :=
  String.join (s.data.map (fun c =>
    if uriUnescaped c then String.singleton c
    else String.join ((utf8Bytes c).map percentByte)))

/-- `.replace(/%20/g, '+')`: every occurrence of `%20`, left to right and
non-overlapping, becomes `+`. -/
def replacePercent20 : List Char → List Char
  | '%' :: '2' :: '0' :: rest => '+' :: replacePercent20 rest
  | c :: rest => c :: replacePercent20 rest
  | [] => []

/-- `encodeURIComponent(v).replace(/%20/g, '+')`: the serialization of one
value in the VNPAY sign data and query string. -/
def vnpEncode (v : String) : String :=
  String.mk (replacePercent20 (encodeURIComponent v).data)

/-- JavaScript's default `Array.prototype.sort` comparator on strings:
lexicographic by code unit. -/
def codePointLe : List Char → List Char → Bool
  | [], _ => true
  | _ :: _, [] => false
  | a :: as, b :: bs =>
    if a.toNat < b.toNat then true
    else if b.toNat < a.toNat then false
    else codePointLe as bs

/-- String comparison used by `.sort()`. -/
def strLe (a b : String) : Bool := codePointLe a.data b.data

/-- The `.sort()` comparison as a relation. -/
def strLeRel (a b : String) : Prop := strLe a b = true

instance : DecidableRel strLeRel :=
  fun a b => inferInstanceAs (Decidable (strLe a b = true))

/-- The fixed canonical key order the handler uses for outbound payment
URLs (`isCallback = false`), copied from the source. -/
def canonicalVnpKeys : List String :=
  ["vnp_Amount", "vnp_Command", "vnp_CreateDate", "vnp_CurrCode",
   "vnp_IpAddr", "vnp_Locale", "vnp_OrderInfo", "vnp_OrderType",
   "vnp_ReturnUrl", "vnp_TmnCode", "vnp_TxnRef", "vnp_Version",
   "vnp_ExpireDate", "vnp_Bill_Mobile", "vnp_Bill_Email",
   "vnp_Bill_FirstName", "vnp_Bill_LastName", "vnp_Bill_Address",
   "vnp_Bill_City", "vnp_Bill_Country", "vnp_Bill_State", "vnp_Inv_Phone",
   "vnp_Inv_Email", "vnp_Inv_Customer", "vnp_Inv_Address",
   "vnp_Inv_Company", "vnp_Inv_Taxcode", "vnp_Inv_Type", "vnp_BankCode"]

/-- `params[key]` coerced as the serialization reads it (a missing or
`null` key never survives the filters, so `""` is only a placeholder). -/
def paramVal (params : List (String × Option String)) (k : String) : String :=
  match params.lookup k with
  | some (some v) => v
  | _ => ""

/-- Whether `params[k]` exists and is neither `''` nor `null`. -/
def paramPresent (params : List (String × Option String)) (k : String) : Bool :=
  match params.lookup k with
  | some (some v) => !(v == "")
  | _ => false

/-- The ordered key list of `createVnpaySignature`: for a callback, the
object's keys minus the signature fields and empty/null values, sorted by
`.sort()` (a stable lexicographic sort, modelled by insertion sort, which
computes the same stable sorted permutation); for an outbound request, the
canonical fixed order filtered to the keys present with non-empty
values. -/
def vnpOrderedKeys (params : List (String × Option String))
    (isCallback : Bool) : List String :=
  if isCallback then
    ((params.map Prod.fst).filter (fun k =>
      !(k == "vnp_SecureHash") && !(k == "vnp_SecureHashType") &&
      paramPresent params k)).insertionSort strLeRel
  else
    canonicalVnpKeys.filter (fun k => paramPresent params k)

/-- The `signData` string: `key=vnpEncode(value)` joined by `&` over the
ordered keys. -/
def vnpSignData (params : List (String × Option String))
    (isCallback : Bool) : String :=
  String.intercalate "&"
    ((vnpOrderedKeys params isCallback).map (fun k =>
      k ++ "=" ++ vnpEncode (paramVal params k)))

/-- `createVnpaySignature(params, secretKey, isCallback)`: HMAC-SHA512 of
the sign data under the secret key; the HMAC primitive from `crypto` is
the abstract `hmacSha512` argument (key → message → hex digest). -/
def createVnpaySignature (hmacSha512 : String → String → String)
    (params : List (String × Option String)) (secretKey : String)
    (isCallback : Bool) : String :=
  hmacSha512 secretKey (vnpSignData params isCallback)

/-- Splitting a character list at a separator; the JS semantics: an empty
input gives one empty segment, adjacent separators give empty segments. -/
def splitChars (sep : Char) : List Char → List (List Char)
  | [] => [[]]
  | c :: rest =>
    if c == sep then [] :: splitChars sep rest
    else
      match splitChars sep rest with
      | [] => [[c]]
      | h :: t => (c :: h) :: t

/-- JavaScript `String.prototype.split` by one character. -/
def jsSplit (s : String) (sep : Char) : List String :=
  (splitChars sep s.data).map String.mk

/-- Accumulates the value of a leading run of decimal digits. -/
def natDigitPrefix (acc : Nat) : List Char → Nat
  | c :: rest =>
    if c.isDigit then natDigitPrefix (acc * 10 + (c.toNat - 48)) rest
    else acc
  | [] => acc

/-- MySQL's coercion of a string bind parameter compared against an
integer column: the leading digit prefix as a number (0 when none). -/
def mysqlIntOfString (s : String) : Nat :=
  natDigitPrefix 0 s.data

/-- The two `delete vnpParams.vnp_SecureHash*` statements at the top of the
callback handler: the parameter set without the signature fields. -/
def stripSecureHash (params : List (String × Option String)) :
    List (String × Option String) :=
  params.filter (fun kv =>
    !(kv.1 == "vnp_SecureHash") && !(kv.1 == "vnp_SecureHashType"))

/-- `GET /api/vnpay/return`: strips `vnp_SecureHash`/`vnp_SecureHashType`,
recomputes the callback signature and rejects on mismatch without touching
any table. On a match it reads the order id out of
`vnp_TxnRef = ORDER_<id>_<ts>` (`split('_')[1]`); a missing `vnp_TxnRef`
(or a one-segment value, whose index 1 is `undefined`) throws inside the
`try` and surfaces as a 500 with no state change. Response code `00` sets
the order's payment(s) and the order itself to `completed`; any other
code sets the payment(s) to `cancelled` and leaves `orders` untouched. -/
def vnpayReturn (hmacSha512 : String → String → String) (secret : String)
    (db : DB) (params : List (String × Option String)) : ApiOut String × DB :=
  let secureHash : Option String := (params.lookup "vnp_SecureHash").bind id
  let params' := stripSecureHash params
  let calculatedHash := createVnpaySignature hmacSha512 params' secret true
  if !(secureHash == some calculatedHash) then
    (.err 400 "Invalid signature", db)
  else
    match (params'.lookup "vnp_TxnRef").bind id with
    | none => (.err 500 "Server error", db)
    | some txnRef =>
      match (jsSplit txnRef '_').get? 1 with
      | none => (.err 500 "Server error", db)
      | some seg =>
        let order_id := mysqlIntOfString seg
        if paramVal params' "vnp_ResponseCode" == "00" then
          (.ok "http://localhost:3001/orders?payment=success",
            { db with
              payments := db.payments.map (fun p =>
                if p.order_id == order_id then { p with status := "completed" }
                else p)
              orders := db.orders.map (fun o =>
                if o.id == order_id then { o with status := "completed" }
                else o) })
        else
          (.ok "http://localhost:3001/orders?payment=cancelled",
            { db with
              payments := db.payments.map (fun p =>
                if p.order_id == order_id then { p with status := "cancelled" }
                else p) })

/-! ## The operations as a step relation -/

/-- One state-mutating request, with the external inputs it consumes
(request body fields, the generated random codes, the clock strings, the
raw callback parameters). Read-only routes do not change the state and
are not listed. -/
inductive Op where
  | addFood (name : String) (price : Int) (category_id : Nat)
  | updateFood (id : Nat) (name : String) (price : Int) (category_id : Nat)
  | deleteFood (id : Nat)
  | createOrder (user_id : Nat) (items : List ItemReq) (ticket_code : String)
  | createOrderVariant (user_id : Nat) (items : List ItemReq)
      (ticket_code : String)
  | recordPayment (user_id : Nat) (order_id : Nat) (method : String)
      (amount : Int) (ts : String)
  | recordPaymentVariant (user_id : Nat) (order_id : Nat) (method : String)
      (amount : Int) (txn : String)
  | confirmCashPayment (payment_id : Nat)
  | ticketsVerify (ticket_code : String)
  | scanQr (ticket_code : String)
  | updateOrderStatus (order_id : Nat) (status : String)
  | cancelOrder (user_id : Nat) (order_id : Nat)
  | softCancelOrder (user_id : Nat) (order_id : Nat)
  | vnpayReturn (params : List (String × Option String))
deriving Repr, DecidableEq

/-- The state reached by one request (the response is dropped).
`hmacSha512` and `secret` configure the gateway adapter. -/
def applyOp (hmacSha512 : String → String → String) (secret : String)
    (db : DB) : Op → DB
  | .addFood name price category_id => (addFood db name price category_id).2
  | .updateFood id name price cat => (updateFood db id name price cat).2
  | .deleteFood id => (deleteFood db id).2
  | .createOrder uid items code => (createOrder db uid items code).2
  | .createOrderVariant uid items code =>
      (createOrderVariant db uid items code).2
  | .recordPayment uid oid method amount ts =>
      (recordPayment db uid oid method amount ts).2
  | .recordPaymentVariant uid oid method amount txn =>
      (recordPaymentVariant db uid oid method amount txn).2
  | .confirmCashPayment pid => (confirmCashPayment db pid).2
  | .ticketsVerify code => (ticketsVerify db code).2
  | .scanQr code => (scanQr db code).2
  | .updateOrderStatus oid status => (updateOrderStatus db oid status).2
  | .cancelOrder uid oid => (cancelOrder db uid oid).2
  | .softCancelOrder uid oid => (softCancelOrder db uid oid).2
  | .vnpayReturn params => (vnpayReturn hmacSha512 secret db params).2

/-- The state after a sequence of requests. -/
def applyOps (hmacSha512 : String → String → String) (secret : String)
    (db : DB) (ops : List Op) : DB :=
  ops.foldl (applyOp hmacSha512 secret) db

/-! ## Derived notions used by the statements -/

/-- The catalog price of a food id at a given state (0 when absent; only
used where the food is known to exist). -/
def priceAt (db : DB) (food_id : Nat) : Int :=
  ((db.foods.find? (fun f => f.id == food_id)).map Food.price).getD 0

/-- Well-formedness of the ticket table that MySQL's primary key and
auto-increment guarantee: ids are distinct and below the counter. Every
operation preserves it (part of `C2`). -/
def TicketIdsOk (db : DB) : Prop :=
  (db.tickets.map Ticket.id).Nodup ∧ ∀ t ∈ db.tickets, t.id < db.nextTicketId

instance (db : DB) : Decidable (TicketIdsOk db) := by
  unfold TicketIdsOk; infer_instance

/-- Monotonicity of `is_used` across one step: a ticket that is used
before the step is still used (identified by its id) after it. -/
def usedMono (db db' : DB) : Prop :=
  ∀ t ∈ db.tickets, t.is_used = true →
    ∀ t' ∈ db'.tickets, t'.id = t.id → t'.is_used = true

/-- How one request changes the ticket table: leaves it alone, rewrites
rows without changing ids and without clearing `is_used`, deletes rows, or
appends one fresh unused row at the auto-increment id. -/
def TicketStep (db db' : DB) : Prop :=
  (db'.tickets = db.tickets ∧ db'.nextTicketId = db.nextTicketId) ∨
  (∃ f : Ticket → Ticket, db'.tickets = db.tickets.map f ∧
    db'.nextTicketId = db.nextTicketId ∧ (∀ x, (f x).id = x.id) ∧
    (∀ x, x.is_used = true → (f x).is_used = true)) ∨
  (∃ p : Ticket → Bool, db'.tickets = db.tickets.filter p ∧
    db'.nextTicketId = db.nextTicketId) ∨
  (∃ nt : Ticket, db'.tickets = db.tickets ++ [nt] ∧
    nt.id = db.nextTicketId ∧ nt.is_used = false ∧
    db'.nextTicketId = db.nextTicketId + 1)

/-! ## Concrete fixtures used by witnesses and counterexamples -/

/-- A stand-in for the external HMAC-SHA512 primitive, used only to
instantiate witnesses (the theorems hold for every such function). -/
def hmac0 : String → String → String := fun _ _ => ""

/-- A state holding one completed order with its unused ticket `z`. -/
def c1Db : DB :=
  { initDB with
    orders := [{ id := 1, user_id := 1, total_price := 100000
                 status := "completed" }]
    tickets := [{ id := 1, order_id := 1, ticket_code := "z"
                  is_used := false }]
    nextOrderId := 2, nextTicketId := 2 }

/-- The state after the first (successful) scan of `z` in `c1Db`. -/
def c1Db' : DB := (scanQr c1Db "z").2

/-- A request trace from the empty store: stock one food, place an order,
record a cash payment (order becomes `confirmed`), and have the admin
confirm the cash payment (payment becomes `completed`). -/
def c2Trace : List Op :=
  [.addFood "Pho" 50000 1,
   .createOrder 1 [{ food_id := 1, quantity := 2 }] "c1",
   .recordPayment 1 1 "cash" 100000 "t0",
   .confirmCashPayment 1]

/-- The state reached by `c2Trace`: order 1 is `confirmed` (not
`completed`), its payment is `completed`, its ticket `c1` unused. -/
def c2Db : DB := applyOps hmac0 "" initDB c2Trace

/-- A catalog with a single food (id 1, price 50000). -/
def c5Db : DB :=
  { initDB with foods := [{ id := 1, name := "Pho", price := 50000
                            category_id := 1 }], nextFoodId := 2 }

/-- The state after ordering two of food 1 in `c5Db`. -/
def c5Db' : DB := (createOrder c5Db 1 [{ food_id := 1, quantity := 2 }] "z").2

/-- One order whose (single) payment is already `completed`. -/
def c6Db : DB :=
  { initDB with
    orders := [{ id := 1, user_id := 1, total_price := 100000
                 status := "confirmed" }]
    payments := [{ payment_id := 1, order_id := 1, method := "cash"
                   amount := 100000, status := "completed"
                   transaction_id := none }]
    nextOrderId := 2, nextPaymentId := 2 }

/-- One order whose (single) payment is still `pending`. -/
def c6DbPending : DB :=
  { c6Db with
    payments := [{ payment_id := 1, order_id := 1, method := "cash"
                   amount := 100000, status := "pending"
                   transaction_id := none }] }

/-- One `pending` order with its ticket, line item and payment, for the
cancellation witness. -/
def c7Db : DB :=
  { initDB with
    orders := [{ id := 1, user_id := 1, total_price := 100000
                 status := "pending" }]
    order_items := [{ order_id := 1, food_id := 1, quantity := 2
                      unit_price := 50000 }]
    payments := [{ payment_id := 1, order_id := 1, method := "cash"
                   amount := 100000, status := "pending"
                   transaction_id := none }]
    tickets := [{ id := 1, order_id := 1, ticket_code := "z"
                  is_used := false }]
    nextOrderId := 2, nextPaymentId := 2, nextTicketId := 2 }

/-- An order already in the terminal `scanned` state (its ticket used),
with no payment rows. -/
def c10Db : DB :=
  { initDB with
    orders := [{ id := 1, user_id := 1, total_price := 100000
                 status := "scanned" }]
    tickets := [{ id := 1, order_id := 1, ticket_code := "z"
                  is_used := true }]
    nextOrderId := 2, nextTicketId := 2 }

/-- Callback parameters signed (under `hmac0`) with success code `00`. -/
def c3Params00 : List (String × Option String) :=
  [("vnp_TxnRef", some "ORDER_1_7"), ("vnp_ResponseCode", some "00"),
   ("vnp_SecureHash", some "")]

/-- Callback parameters signed (under `hmac0`) with failure code `24`. -/
def c3Params24 : List (String × Option String) :=
  [("vnp_TxnRef", some "ORDER_1_7"), ("vnp_ResponseCode", some "24"),
   ("vnp_SecureHash", some "")]

/-- A state with one pending order and its pending online payment. -/
def c3Db : DB :=
  { initDB with
    orders := [{ id := 1, user_id := 1, total_price := 100000
                 status := "pending" }]
    payments := [{ payment_id := 1, order_id := 1, method := "online"
                   amount := 100000, status := "pending"
                   transaction_id := some "ORDER_1_7" }]
    nextOrderId := 2, nextPaymentId := 2 }

/-- Callback parameters whose supplied signature does not match. -/
def c4Params : List (String × Option String) :=
  [("vnp_TxnRef", some "ORDER_1_7"), ("vnp_ResponseCode", some "00"),
   ("vnp_SecureHash", some "bad")]

/-- Sample parameters for the signature-serialization witness. -/
def c9Params : List (String × Option String) :=
  [("vnp_TxnRef", some "ORDER_5_1"), ("vnp_Amount", some "100"),
   ("vnp_OrderInfo", some "Thanh toan 5"), ("vnp_BankCode", some ""),
   ("vnp_SecureHashType", some "HmacSHA512"), ("vnp_SecureHash", some "x")]

/-! ## Theorems -/

/-- C4: a `GET /api/vnpay/return` call whose recomputed callback signature
does not match the supplied `vnp_SecureHash` (in particular, any parameter
altered after signing) is rejected with `Invalid signature` and mutates no
Payment or Order state: the store is returned unchanged. -/
theorem C4_tampered_callback_rejected (hmacSha512 : String → String → String)
    (secret : String) (db : DB) (params : List (String × Option String))
    (h : (params.lookup "vnp_SecureHash").bind id ≠
      some (createVnpaySignature hmacSha512 (stripSecureHash params) secret true)) :
    vnpayReturn hmacSha512 secret db params = (.err 400 "Invalid signature", db) := by
  have hb : ((params.lookup "vnp_SecureHash").bind id ==
      some (createVnpaySignature hmacSha512 (stripSecureHash params) secret true))
      = false := beq_eq_false_iff_ne.mpr h
  simp only [vnpayReturn, hb, Bool.not_false, if_true]

/-- C4 witness: a concrete callback whose supplied hash `bad` differs from
the recomputed one; the call is rejected and the state unchanged. -/
theorem C4_witness :
    vnpayReturn hmac0 "secret" c3Db c4Params = (.err 400 "Invalid signature", c3Db) :=
  C4_tampered_callback_rejected hmac0 "secret" c3Db c4Params (by decide)

/-- C3: a validly signed `GET /api/vnpay/return` callback whose
`vnp_TxnRef` parses to order id `oid`: with gateway response code `00` it
sets the order's payment rows and the order itself to `completed`; with
any other response code it sets the payment rows to `cancelled` and leaves
the `orders` table unchanged. -/
theorem C3_callback_settles_payment (hmacSha512 : String → String → String)
    (secret : String) (db : DB) (params : List (String × Option String))
    (txnRef seg : String) (oid : Nat)
    (hsig : (params.lookup "vnp_SecureHash").bind id =
      some (createVnpaySignature hmacSha512 (stripSecureHash params) secret true))
    (htxn : ((stripSecureHash params).lookup "vnp_TxnRef").bind id = some txnRef)
    (hseg : (jsSplit txnRef '_').get? 1 = some seg)
    (hoid : mysqlIntOfString seg = oid) :
    (paramVal (stripSecureHash params) "vnp_ResponseCode" = "00" →
      vnpayReturn hmacSha512 secret db params =
        (.ok "http://localhost:3001/orders?payment=success",
          { db with
            payments := db.payments.map (fun p =>
              if p.order_id == oid then { p with status := "completed" } else p)
            orders := db.orders.map (fun o =>
              if o.id == oid then { o with status := "completed" } else o) })) ∧
    (paramVal (stripSecureHash params) "vnp_ResponseCode" ≠ "00" →
      vnpayReturn hmacSha512 secret db params =
        (.ok "http://localhost:3001/orders?payment=cancelled",
          { db with
            payments := db.payments.map (fun p =>
              if p.order_id == oid then { p with status := "cancelled" } else p) })) := by
  have hb : ((params.lookup "vnp_SecureHash").bind id ==
      some (createVnpaySignature hmacSha512 (stripSecureHash params) secret true))
      = true := beq_iff_eq.mpr hsig
  constructor
  · intro hc
    have hcb : (paramVal (stripSecureHash params) "vnp_ResponseCode" == "00") = true :=
      beq_iff_eq.mpr hc
    simp only [vnpayReturn, hb, Bool.not_true, Bool.false_eq_true, if_false,
      htxn, hseg, hoid, hcb, if_true]
  · intro hc
    have hcb : (paramVal (stripSecureHash params) "vnp_ResponseCode" == "00") = false :=
      beq_eq_false_iff_ne.mpr hc
    simp only [vnpayReturn, hb, Bool.not_true, Bool.false_eq_true, if_false,
      htxn, hseg, hoid, hcb]

/-- C3 witness: the same concrete state settled through both response
codes: `00` completes payment and order, `24` cancels the payment and
leaves the order row (still `pending`) untouched. -/
theorem C3_witness :
    vnpayReturn hmac0 "s" c3Db c3Params00 =
      (.ok "http://localhost:3001/orders?payment=success",
        { c3Db with
          payments := c3Db.payments.map (fun p =>
            if p.order_id == 1 then { p with status := "completed" } else p)
          orders := c3Db.orders.map (fun o =>
            if o.id == 1 then { o with status := "completed" } else o) }) ∧
    vnpayReturn hmac0 "s" c3Db c3Params24 =
      (.ok "http://localhost:3001/orders?payment=cancelled",
        { c3Db with
          payments := c3Db.payments.map (fun p =>
            if p.order_id == 1 then { p with status := "cancelled" } else p) }) :=
  ⟨(C3_callback_settles_payment hmac0 "s" c3Db c3Params00 "ORDER_1_7" "1" 1
      (by decide) (by decide) (by decide) (by decide)).1 (by decide),
   (C3_callback_settles_payment hmac0 "s" c3Db c3Params24 "ORDER_1_7" "1" 1
      (by decide) (by decide) (by decide) (by decide)).2 (by decide)⟩

/-- C7: a `DELETE /api/orders/:orderId/cancel` call by the order's owner:
when the status is not `pending` it fails with the conflict response and
the whole state is unchanged; when the status is `pending` it succeeds and
afterwards lookups by that order id find no order, line item, payment or
ticket row. -/
theorem C7_cancel_pending_cascades (db : DB) (uid oid : Nat) (o : Order)
    (hfind : db.orders.find? (fun x => x.id == oid && x.user_id == uid) = some o) :
    (o.status ≠ "pending" →
      cancelOrder db uid oid =
        (.err 400 "Only pending orders can be cancelled", db)) ∧
    (o.status = "pending" →
      (cancelOrder db uid oid).1 = .ok "Order cancelled successfully" ∧
      (cancelOrder db uid oid).2.orders.find? (fun x => x.id == oid) = none ∧
      (cancelOrder db uid oid).2.order_items.find? (fun i => i.order_id == oid) = none ∧
      (cancelOrder db uid oid).2.payments.find? (fun p => p.order_id == oid) = none ∧
      (cancelOrder db uid oid).2.tickets.find? (fun t => t.order_id == oid) = none) := by
  constructor
  · intro hs
    have hb : (o.status == "pending") = false := beq_eq_false_iff_ne.mpr hs
    simp only [cancelOrder, hfind, hb, Bool.not_false, if_true]
  · intro hs
    have hb : (o.status == "pending") = true := beq_iff_eq.mpr hs
    have hc : cancelOrder db uid oid =
        (.ok "Order cancelled successfully",
          { db with
            tickets := db.tickets.filter (fun t => !(t.order_id == oid))
            order_items := db.order_items.filter (fun i => !(i.order_id == oid))
            payments := db.payments.filter (fun p => !(p.order_id == oid))
            orders := db.orders.filter (fun x => !(x.id == oid)) }) := by
      simp only [cancelOrder, hfind, hb, Bool.not_true, Bool.false_eq_true,
        if_false]
    rw [hc]
    refine ⟨rfl, ?_, ?_, ?_, ?_⟩ <;>
    · rw [List.find?_eq_none]
      intro x hx
      have hmem := (List.mem_filter.mp hx).2
      simp only [Bool.not_eq_true'] at hmem
      simp [hmem]

/-- C7 witness: in a state with a pending order 1 (with a line item,
payment and ticket), the strict cancel succeeds and all four lookups come
back empty; and the same theorem specialized to `c1Db` (order completed)
yields the conflict error. -/
theorem C7_witness :
    ((cancelOrder c7Db 1 1).1 = .ok "Order cancelled successfully" ∧
      (cancelOrder c7Db 1 1).2.orders.find? (fun x => x.id == 1) = none ∧
      (cancelOrder c7Db 1 1).2.order_items.find? (fun i => i.order_id == 1) = none ∧
      (cancelOrder c7Db 1 1).2.payments.find? (fun p => p.order_id == 1) = none ∧
      (cancelOrder c7Db 1 1).2.tickets.find? (fun t => t.order_id == 1) = none) ∧
    cancelOrder c1Db 1 1 = (.err 400 "Only pending orders can be cancelled", c1Db) :=
  ⟨(C7_cancel_pending_cascades c7Db 1 1
      { id := 1, user_id := 1, total_price := 100000, status := "pending" }
      (by decide)).2 rfl,
   (C7_cancel_pending_cascades c1Db 1 1
      { id := 1, user_id := 1, total_price := 100000, status := "completed" }
      (by decide)).1 (by decide)⟩

/-- The effect of the tail of `POST /api/payments` for a valid method: the
response row, the appended payment, and (for cash) the unconditional
status flip of the order to `confirmed`. -/
theorem recordPaymentInsert_spec (db : DB) (oid : Nat) (method : String)
    (amount : Int) (ts : String) (hm : method = "cash" ∨ method = "online") :
    (recordPaymentInsert db oid method amount ts).1 =
      .ok { payment_id := db.nextPaymentId, order_id := oid, amount, method
            status := "pending"
            transaction_id := if method == "online" then
              some ("ORDER_" ++ toString oid ++ "_" ++ ts) else none } ∧
    (recordPaymentInsert db oid method amount ts).2.payments =
      db.payments ++
        [{ payment_id := db.nextPaymentId, order_id := oid, method, amount
           status := "pending"
           transaction_id := if method == "online" then
             some ("ORDER_" ++ toString oid ++ "_" ++ ts) else none }] ∧
    (recordPaymentInsert db oid method amount ts).2.orders =
      (if method = "cash" then
        db.orders.map (fun o =>
          if o.id == oid then { o with status := "confirmed" } else o)
      else db.orders) := by
  rcases hm with hm | hm <;> subst hm <;>
    refine ⟨?_, ?_, ?_⟩ <;>
    · simp only [recordPaymentInsert]
      simp only [show (("cash" : String) == "online") = false from by decide,
        show (("cash" : String) == "cash") = true from by decide,
        show (("online" : String) == "online") = true from by decide,
        show (("online" : String) == "cash") = false from by decide,
        Bool.true_or, Bool.or_true, Bool.false_or, Bool.or_false,
        Bool.not_true, Bool.false_eq_true, if_false, if_true,
        ite_true, ite_false]
      try first
      | rfl
      | (split <;> rfl)

/-- C10: whenever `POST /api/payments` with `method = 'cash'` gets past
its validation (order owned by the caller — with any prior status — and no
conflicting completed first payment), it answers with a fresh pending cash
payment and sets every order row with that id to `confirmed`, regardless
of the status the order had before. -/
theorem C10_cash_payment_overwrites_status (db : DB) (uid oid : Nat)
    (o : Order) (amount : Int) (ts : String)
    (hfind : db.orders.find? (fun x => x.id == oid && x.user_id == uid) = some o)
    (hoid : oid ≠ 0) (hamt : 0 < amount)
    (hp : ∀ p, (paymentsFor db oid).head? = some p → p.status ≠ "completed") :
    (recordPayment db uid oid "cash" amount ts).1 =
      .ok { payment_id := db.nextPaymentId, order_id := oid, amount
            method := "cash", status := "pending", transaction_id := none } ∧
    ∀ o' ∈ (recordPayment db uid oid "cash" amount ts).2.orders,
      o'.id = oid → o'.status = "confirmed" := by
  have hv : ((oid == 0) || (("cash" : String) == "") || (amount == 0)) = false := by
    simp [hoid, ne_of_gt hamt]
  have hle : ¬ (amount ≤ 0) := not_le.mpr hamt
  have main : ∀ dbx : DB, dbx.orders = db.orders →
      dbx.nextPaymentId = db.nextPaymentId →
      (recordPaymentInsert dbx oid "cash" amount ts).1 =
        .ok { payment_id := db.nextPaymentId, order_id := oid, amount
              method := "cash", status := "pending", transaction_id := none } ∧
      ∀ o' ∈ (recordPaymentInsert dbx oid "cash" amount ts).2.orders,
        o'.id = oid → o'.status = "confirmed" := by
    intro dbx ho hn
    obtain ⟨h1, h2, h3⟩ :=
      recordPaymentInsert_spec dbx oid "cash" amount ts (Or.inl rfl)
    simp only [show (("cash" : String) == "online") = false from by decide,
      Bool.false_eq_true, if_false] at h1
    constructor
    · rw [h1, hn]
    · intro o' ho' hid
      rw [h3] at ho'
      simp only [if_pos rfl, ho] at ho'
      obtain ⟨x, hx, hfx⟩ := List.mem_map.mp ho'
      by_cases hxid : (x.id == oid) = true
      · rw [← hfx]; simp [hxid]
      · exfalso
        rw [← hfx] at hid
        simp only [hxid, Bool.false_eq_true, if_false] at hid
        exact hxid (beq_iff_eq.mpr hid)
  cases hh : (paymentsFor db oid).head? with
  | none =>
    have hrun : recordPayment db uid oid "cash" amount ts =
        recordPaymentInsert db oid "cash" amount ts := by
      simp only [recordPayment, hv, Bool.false_eq_true, if_false]
      rw [if_neg hle]
      simp only [hfind, hh]
    rw [hrun]
    exact main db rfl rfl
  | some p =>
    have hpc : (p.status == "completed") = false :=
      beq_eq_false_iff_ne.mpr (hp p hh)
    have hrun : recordPayment db uid oid "cash" amount ts =
        recordPaymentInsert
          (if p.status == "pending" || p.status == "failed" ||
              p.status == "cancelled" then
            { db with
              payments := db.payments.filter (fun q => !(q.order_id == oid)) }
          else db) oid "cash" amount ts := by
      simp only [recordPayment, hv, Bool.false_eq_true, if_false]
      rw [if_neg hle]
      simp only [hfind, hh, hpc, Bool.false_eq_true, if_false]
    rw [hrun]
    exact main _ (by split <;> rfl) (by split <;> rfl)

/-- C10 witness: order 1 of `c10Db` is already in the terminal state
`scanned` with a used ticket; a cash `POST /api/payments` nevertheless
succeeds and rewrites the order status to `confirmed`. -/
theorem C10_witness :
    (paymentsFor c10Db 1).head? = none ∧
    (recordPayment c10Db 1 1 "cash" 100000 "t").1 =
      .ok { payment_id := 1, order_id := 1, amount := 100000
            method := "cash", status := "pending", transaction_id := none } ∧
    (recordPayment c10Db 1 1 "cash" 100000 "t").2.orders =
      [{ id := 1, user_id := 1, total_price := 100000, status := "confirmed" }] :=
  ⟨by decide,
   (C10_cash_payment_overwrites_status c10Db 1 1
      { id := 1, user_id := 1, total_price := 100000, status := "scanned" }
      100000 "t" (by decide) (by decide) (by decide)
      (fun p hph => by simp [paymentsFor, c10Db, initDB] at hph)).1,
   by decide⟩

/-- C6: `POST /api/payments` on an order with at most one existing payment
row (the invariant the handler itself maintains): when that payment is
`completed` the call fails with the conflict response and the state is
returned unchanged; when every existing payment is
`pending`/`failed`/`cancelled` the old rows are purged and exactly one
payment row — the fresh pending one — exists for the order afterwards. -/
theorem C6_no_second_payment (db : DB) (uid oid : Nat) (o : Order)
    (method : String) (amount : Int) (ts : String)
    (hfind : db.orders.find? (fun x => x.id == oid && x.user_id == uid) = some o)
    (hoid : oid ≠ 0) (hamt : 0 < amount)
    (hm : method = "cash" ∨ method = "online")
    (hone : (paymentsFor db oid).length ≤ 1) :
    ((∃ p ∈ paymentsFor db oid, p.status = "completed") →
      recordPayment db uid oid method amount ts =
        (.err 400 "Payment already completed for this order", db)) ∧
    ((∀ p ∈ paymentsFor db oid,
        p.status = "pending" ∨ p.status = "failed" ∨ p.status = "cancelled") →
      paymentsFor (recordPayment db uid oid method amount ts).2 oid =
        [{ payment_id := db.nextPaymentId, order_id := oid, method, amount
           status := "pending"
           transaction_id := if method == "online" then
             some ("ORDER_" ++ toString oid ++ "_" ++ ts) else none }]) := by
  have hmne : method ≠ "" := by rcases hm with hm | hm <;> subst hm <;> decide
  have hv : ((oid == 0) || (method == "") || (amount == 0)) = false := by
    simp [hoid, hmne, ne_of_gt hamt]
  have hle : ¬ (amount ≤ 0) := not_le.mpr hamt
  constructor
  · rintro ⟨p, hpmem, hpc⟩
    have hsingle : paymentsFor db oid = [p] := by
      cases hl : paymentsFor db oid with
      | nil => rw [hl] at hpmem; cases hpmem
      | cons a t =>
        rw [hl] at hpmem hone
        have ht : t = [] := by
          simp only [List.length_cons] at hone
          exact List.eq_nil_of_length_eq_zero (by omega)
        subst ht
        rcases List.mem_singleton.mp hpmem with rfl
        rfl
    have hh : (paymentsFor db oid).head? = some p := by rw [hsingle]; rfl
    have hpb : (p.status == "completed") = true := beq_iff_eq.mpr hpc
    simp only [recordPayment, hv, Bool.false_eq_true, if_false]
    rw [if_neg hle]
    simp only [hfind, hh, hpb, if_true]
  · intro hall
    cases hh : (paymentsFor db oid).head? with
    | none =>
      have hnil : paymentsFor db oid = [] := List.head?_eq_none_iff.mp hh
      have hrun : recordPayment db uid oid method amount ts =
          recordPaymentInsert db oid method amount ts := by
        simp only [recordPayment, hv, Bool.false_eq_true, if_false]
        rw [if_neg hle]
        simp only [hfind, hh]
      rw [hrun]
      obtain ⟨_, h2, _⟩ := recordPaymentInsert_spec db oid method amount ts hm
      unfold paymentsFor at hnil ⊢
      rw [h2, List.filter_append, hnil, List.nil_append]
      simp
    | some p =>
      have hpmem : p ∈ paymentsFor db oid := by
        cases hl : paymentsFor db oid with
        | nil => rw [hl] at hh; cases hh
        | cons a t =>
          rw [hl] at hh
          injection hh with hpa
          exact hpa ▸ List.mem_cons_self a t
      have hps := hall p hpmem
      have hpc : (p.status == "completed") = false := by
        rcases hps with h | h | h <;> rw [h] <;> decide
      have hcond : (p.status == "pending" || p.status == "failed" ||
          p.status == "cancelled") = true := by
        rcases hps with h | h | h <;> rw [h] <;> decide
      have hrun : recordPayment db uid oid method amount ts =
          recordPaymentInsert
            { db with
              payments := db.payments.filter (fun q => !(q.order_id == oid)) }
            oid method amount ts := by
        simp only [recordPayment, hv, Bool.false_eq_true, if_false]
        rw [if_neg hle]
        simp only [hfind, hh, hpc, Bool.false_eq_true, if_false, hcond, if_true]
      rw [hrun]
      obtain ⟨_, h2, _⟩ :=
        recordPaymentInsert_spec
          { db with
            payments := db.payments.filter (fun q => !(q.order_id == oid)) }
          oid method amount ts hm
      unfold paymentsFor
      rw [h2, List.filter_append]
      have hnone : List.filter (fun p => p.order_id == oid)
          (List.filter (fun q => !(q.order_id == oid)) db.payments) = [] := by
        rw [List.filter_filter]
        simp
      rw [hnone, List.nil_append]
      simp

/-- C6 witness: with an existing completed payment (`c6Db`) a second
`POST /api/payments` is the conflict error and the state is unchanged;
with an existing pending payment (`c6DbPending`) the old row is purged and
exactly the fresh pending payment remains for order 1. -/
theorem C6_witness :
    recordPayment c6Db 1 1 "cash" 100000 "t" =
      (.err 400 "Payment already completed for this order", c6Db) ∧
    paymentsFor (recordPayment c6DbPending 1 1 "cash" 100000 "t").2 1 =
      [{ payment_id := 2, order_id := 1, method := "cash", amount := 100000
         status := "pending", transaction_id := none }] := by
  constructor
  · exact (C6_no_second_payment c6Db 1 1
      { id := 1, user_id := 1, total_price := 100000, status := "confirmed" }
      "cash" 100000 "t" (by decide) (by decide) (by decide) (Or.inl rfl)
      (by decide)).1
      ⟨{ payment_id := 1, order_id := 1, method := "cash", amount := 100000
         status := "completed", transaction_id := none }, by decide, rfl⟩
  · have := (C6_no_second_payment c6DbPending 1 1
      { id := 1, user_id := 1, total_price := 100000, status := "confirmed" }
      "cash" 100000 "t" (by decide) (by decide) (by decide) (Or.inl rfl)
      (by decide)).2 (by decide)
    simpa using this

/-- A successful pricing loop returns exactly the items paired with their
catalog price at the current state. -/
theorem priceItems_ok_eq (db : DB) :
    ∀ (items : List ItemReq) (priced : List (ItemReq × Int)),
      priceItems db items = .ok priced →
      priced = items.map (fun it => (it, priceAt db it.food_id)) := by
  intro items
  induction items with
  | nil =>
    intro priced h
    simp only [priceItems] at h
    injection h with h
    simp [← h]
  | cons it rest ih =>
    intro priced h
    unfold priceItems at h
    cases hf : db.foods.find? (fun f => f.id == it.food_id) with
    | none => rw [hf] at h; cases h
    | some f =>
      rw [hf] at h
      cases hr : priceItems db rest with
      | error e => rw [hr] at h; cases h
      | ok tl =>
        rw [hr] at h
        simp only [Except.map] at h
        injection h with h
        rw [← h, List.map_cons, ih tl hr]
        have : priceAt db it.food_id = f.price := by simp [priceAt, hf]
        rw [this]

/-- Folding `acc + f x` over a list from `a` is `a` plus the sum. -/
theorem foldl_add_sum {α : Type} (f : α → Int) :
    ∀ (l : List α) (a : Int),
      l.foldl (fun acc x => acc + f x) a = a + (l.map f).sum := by
  intro l
  induction l with
  | nil => intro a; simp
  | cons x xs ih =>
    intro a
    simp only [List.foldl_cons, List.map_cons, List.sum_cons, ih]
    ring

/-- `PUT /api/foods/:id` never touches the `orders` or `order_items`
tables, whatever its arguments and outcome. -/
theorem updateFood_preserves_orders (db : DB) (id : Nat) (nm : String)
    (pr : Int) (cat : Nat) :
    (updateFood db id nm pr cat).2.orders = db.orders ∧
    (updateFood db id nm pr cat).2.order_items = db.order_items := by
  unfold updateFood
  constructor <;>
    · split
      · rfl
      · split <;> rfl

/-- C5: a successful `POST /api/orders` stores `total_price` equal to the
sum over the items of catalog price at creation time × quantity, snapshots
that price as each line item's `unit_price`, and later catalog price
updates (`PUT /api/foods/:id`) leave the stored order and line-item rows
unchanged. -/
theorem C5_total_price_snapshot (db : DB) (uid : Nat) (items : List ItemReq)
    (code : String) (res : CreateOrderRes) (db' : DB)
    (h : createOrder db uid items code = (.ok res, db')) :
    res.total_price =
      (items.map (fun it => priceAt db it.food_id * it.quantity)).sum ∧
    db'.orders = db.orders ++
      [{ id := res.order_id, user_id := uid, total_price := res.total_price
         status := "pending" }] ∧
    db'.order_items = db.order_items ++
      items.map (fun it =>
        { order_id := res.order_id, food_id := it.food_id
          quantity := it.quantity, unit_price := priceAt db it.food_id }) ∧
    (∀ (fid : Nat) (nm : String) (pr : Int) (cat : Nat),
      (updateFood db' fid nm pr cat).2.orders = db'.orders ∧
      (updateFood db' fid nm pr cat).2.order_items = db'.order_items) := by
  unfold createOrder at h
  split at h
  · exact absurd (congrArg Prod.fst h) (by simp)
  · cases hp : priceItems db items with
    | error fid =>
      rw [hp] at h
      exact absurd (congrArg Prod.fst h) (by simp)
    | ok priced =>
      rw [hp] at h
      have hres : res =
          { order_id := db.nextOrderId
            total_price := priced.foldl (fun acc p => acc + p.2 * p.1.quantity) 0
            status := "pending", ticket_code := code } := by
        have := congrArg Prod.fst h
        simp only at this
        injection this with this
        exact this.symm
      have hdb' := (congrArg Prod.snd h).symm
      simp only at hdb'
      have hpriced := priceItems_ok_eq db items priced hp
      have htot : res.total_price =
          (items.map (fun it => priceAt db it.food_id * it.quantity)).sum := by
        simp only [hres, hpriced]
        rw [foldl_add_sum (fun p : ItemReq × Int => p.2 * p.1.quantity),
          zero_add, List.map_map]
        rfl
      refine ⟨htot, ?_, ?_, fun fid nm pr cat => updateFood_preserves_orders _ fid nm pr cat⟩
      · rw [hdb']
        simp only [hres]
      · rw [hdb']
        simp only [hres, hpriced, List.map_map]
        rfl

/-- C5 witness: ordering two of food 1 (price 50000) in `c5Db` stores
total 100000, and a later catalog price change leaves the stored rows
alone. -/
theorem C5_witness :
    createOrder c5Db 1 [{ food_id := 1, quantity := 2 }] "z" =
      (.ok { order_id := 1, total_price := 100000, status := "pending"
             ticket_code := "z" }, c5Db') ∧
    ({ order_id := 1, total_price := 100000, status := "pending"
       ticket_code := "z" } : CreateOrderRes).total_price =
      (([{ food_id := 1, quantity := 2 }] : List ItemReq).map
        (fun it => priceAt c5Db it.food_id * it.quantity)).sum ∧
    (updateFood c5Db' 1 "Pho" 99999 1).2.orders = c5Db'.orders :=
  ⟨by decide,
   (C5_total_price_snapshot c5Db 1 [{ food_id := 1, quantity := 2 }] "z"
      { order_id := 1, total_price := 100000, status := "pending"
        ticket_code := "z" } c5Db' (by decide)).1,
   ((C5_total_price_snapshot c5Db 1 [{ food_id := 1, quantity := 2 }] "z"
      { order_id := 1, total_price := 100000, status := "pending"
        ticket_code := "z" } c5Db' (by decide)).2.2.2 1 "Pho" 99999 1).1⟩

/-- A successful pricing loop found every item's food. -/
theorem priceItems_ok_found (db : DB) :
    ∀ (items : List ItemReq) (priced : List (ItemReq × Int)),
      priceItems db items = .ok priced →
      ∀ it ∈ items, ∃ f, db.foods.find? (fun x => x.id == it.food_id) = some f := by
  intro items
  induction items with
  | nil => intro priced _ it hmem; cases hmem
  | cons hd rest ih =>
    intro priced h it hmem
    unfold priceItems at h
    cases hf : db.foods.find? (fun x => x.id == hd.food_id) with
    | none => rw [hf] at h; cases h
    | some f =>
      rw [hf] at h
      cases hr : priceItems db rest with
      | error e => rw [hr] at h; cases h
      | ok tl =>
        rcases List.mem_cons.mp hmem with rfl | hmem'
        · exact ⟨f, hf⟩
        · exact ih tl hr it hmem'

/-- If some item's food id is unknown, the pricing loop fails. -/
theorem priceItems_missing (db : DB) (items : List ItemReq)
    (h : ∃ it ∈ items, db.foods.find? (fun f => f.id == it.food_id) = none) :
    ∃ fid, priceItems db items = .error fid := by
  cases hp : priceItems db items with
  | error fid => exact ⟨fid, rfl⟩
  | ok priced =>
    obtain ⟨it, hmem, hnone⟩ := h
    obtain ⟨f, hf⟩ := priceItems_ok_found db items priced hp it hmem
    rw [hnone] at hf
    cases hf

/-- Every error the variant pricing loop produces carries HTTP status
400. -/
theorem priceItemsVariant_error_400 (db : DB) :
    ∀ (items : List ItemReq) (e : Nat × String),
      priceItemsVariant db items = .error e → e.1 = 400 := by
  intro items
  induction items with
  | nil => intro e h; cases h
  | cons hd rest ih =>
    intro e h
    unfold priceItemsVariant at h
    split at h
    · injection h with h; rw [← h]
    · cases hf : db.foods.find? (fun f => f.id == hd.food_id) with
      | none => rw [hf] at h; injection h with h; rw [← h]
      | some f =>
        rw [hf] at h
        cases hr : priceItemsVariant db rest with
        | error e' =>
          rw [hr] at h
          injection h with h
          exact h ▸ ih e' hr
        | ok tl => rw [hr] at h; cases h

/-- A successful variant pricing loop validated every item. -/
theorem priceItemsVariant_ok_valid (db : DB) :
    ∀ (items : List ItemReq) (priced : List (ItemReq × Int)),
      priceItemsVariant db items = .ok priced →
      ∀ it ∈ items, it.food_id ≠ 0 ∧ 0 < it.quantity ∧
        ∃ f, db.foods.find? (fun x => x.id == it.food_id) = some f := by
  intro items
  induction items with
  | nil => intro priced _ it hmem; cases hmem
  | cons hd rest ih =>
    intro priced h it hmem
    unfold priceItemsVariant at h
    split at h
    · cases h
    · rename_i hcond
      cases hf : db.foods.find? (fun x => x.id == hd.food_id) with
      | none => rw [hf] at h; cases h
      | some f =>
        rw [hf] at h
        cases hr : priceItemsVariant db rest with
        | error e => rw [hr] at h; cases h
        | ok tl =>
          rcases List.mem_cons.mp hmem with rfl | hmem'
          · simp only [Bool.or_eq_true, not_or, beq_iff_eq, decide_eq_true_eq] at hcond
            push_neg at hcond
            exact ⟨hcond.1, hcond.2, f, hf⟩
          · exact ih tl hr it hmem'

/-- If some item of the variant call is invalid or references an unknown
food, the variant pricing loop fails. -/
theorem priceItemsVariant_invalid (db : DB) (items : List ItemReq)
    (h : ∃ it ∈ items, it.food_id = 0 ∨ it.quantity ≤ 0 ∨
      db.foods.find? (fun f => f.id == it.food_id) = none) :
    ∃ e, priceItemsVariant db items = .error e := by
  cases hp : priceItemsVariant db items with
  | error e => exact ⟨e, rfl⟩
  | ok priced =>
    obtain ⟨it, hmem, hbad⟩ := h
    obtain ⟨h0, hq, f, hf⟩ := priceItemsVariant_ok_valid db items priced hp it hmem
    rcases hbad with hbad | hbad | hbad
    · exact absurd hbad h0
    · exact absurd hbad (not_le.mpr hq)
    · rw [hbad] at hf; cases hf

/-- C8 (amended): the current `POST /api/orders` rejects an empty item
list with a 400 and an unknown food id with a 404, in both cases before
any write (the state comes back unchanged); it performs no quantity
validation. The older variant handler additionally rejects items without
`quantity > 0`, and reports every per-item failure — unknown food ids
included — with HTTP status 400. -/
theorem C8_order_validation (db : DB) (uid : Nat) (items : List ItemReq)
    (code : String) :
    (items = [] → createOrder db uid items code =
      (.err 400 "Items are required", db)) ∧
    ((∃ it ∈ items, db.foods.find? (fun f => f.id == it.food_id) = none) →
      ∃ fid : Nat, createOrder db uid items code =
        (.err 404 ("Food with id " ++ toString fid ++ " not found"), db)) ∧
    (items = [] → createOrderVariant db uid items code =
      (.err 400 "Items are required and must be a non-empty array", db)) ∧
    ((∃ it ∈ items, it.food_id = 0 ∨ it.quantity ≤ 0 ∨
        db.foods.find? (fun f => f.id == it.food_id) = none) →
      ∃ msg, createOrderVariant db uid items code = (.err 400 msg, db)) := by
  refine ⟨?_, ?_, ?_, ?_⟩
  · rintro rfl
    rfl
  · intro hmiss
    have hne : items.isEmpty = false := by
      obtain ⟨it, hmem, _⟩ := hmiss
      cases items with
      | nil => cases hmem
      | cons a t => rfl
    obtain ⟨fid, hfid⟩ := priceItems_missing db items hmiss
    refine ⟨fid, ?_⟩
    simp only [createOrder, hne, Bool.false_eq_true, if_false, hfid]
  · rintro rfl
    rfl
  · intro hbad
    have hne : items.isEmpty = false := by
      obtain ⟨it, hmem, _⟩ := hbad
      cases items with
      | nil => cases hmem
      | cons a t => rfl
    obtain ⟨e, he⟩ := priceItemsVariant_invalid db items hbad
    have h400 := priceItemsVariant_error_400 db items e he
    refine ⟨e.2, ?_⟩
    simp only [createOrderVariant, hne, Bool.false_eq_true, if_false, he, h400]

/-- C8 counterexample: the current handler accepts an item with
`quantity = 0` when the food exists — the call succeeds with total 0 and
creates the order and ticket — contradicting the claim that any
`quantity ≤ 0` fails with a validation error and creates nothing. -/
theorem C8_counterexample :
    (createOrder c5Db 1 [{ food_id := 1, quantity := 0 }] "q").1 =
      .ok { order_id := 1, total_price := 0, status := "pending"
            ticket_code := "q" } ∧
    (createOrder c5Db 1 [{ food_id := 1, quantity := 0 }] "q").2.orders =
      [{ id := 1, user_id := 1, total_price := 0, status := "pending" }] ∧
    (createOrder c5Db 1 [{ food_id := 1, quantity := 0 }] "q").2.tickets =
      [{ id := 1, order_id := 1, ticket_code := "q", is_used := false }] := by
  decide

/-- C8 witness: the empty-items rejections of both handlers, a concrete
unknown-food rejection of the current handler (404), and a concrete
invalid-quantity rejection of the variant handler (400). -/
theorem C8_witness :
    createOrder c5Db 1 [] "q" = (.err 400 "Items are required", c5Db) ∧
    createOrderVariant c5Db 1 [] "q" =
      (.err 400 "Items are required and must be a non-empty array", c5Db) ∧
    (∃ fid : Nat, createOrder c5Db 1 [{ food_id := 9, quantity := 1 }] "q" =
      (.err 404 ("Food with id " ++ toString fid ++ " not found"), c5Db)) ∧
    (∃ msg, createOrderVariant c5Db 1 [{ food_id := 1, quantity := 0 }] "q" =
      (.err 400 msg, c5Db)) :=
  ⟨(C8_order_validation c5Db 1 [] "q").1 rfl,
   (C8_order_validation c5Db 1 [] "q").2.2.1 rfl,
   (C8_order_validation c5Db 1 [{ food_id := 9, quantity := 1 }] "q").2.1
     ⟨{ food_id := 9, quantity := 1 }, List.mem_singleton.mpr rfl, by decide⟩,
   (C8_order_validation c5Db 1 [{ food_id := 1, quantity := 0 }] "q").2.2.2
     ⟨{ food_id := 1, quantity := 0 }, List.mem_singleton.mpr rfl,
      Or.inr (Or.inl (by decide))⟩⟩

/-- The first row of the scan join comes from a ticket of the table whose
code matches and whose order is found. -/
theorem scanRows_head_spec (db : DB) (code : String) (t : Ticket) (o : Order)
    (h : (scanRows db code).head? = some (t, o)) :
    t ∈ db.tickets ∧ (t.ticket_code == code) = true ∧
      db.orders.find? (fun x => x.id == t.order_id) = some o := by
  have hmem : (t, o) ∈ scanRows db code := by
    cases hl : scanRows db code with
    | nil => rw [hl] at h; cases h
    | cons a rest =>
      rw [hl] at h
      injection h with h
      exact h ▸ List.mem_cons_self a rest
  obtain ⟨x, hx, hgx⟩ := List.mem_filterMap.mp hmem
  by_cases hc : (x.ticket_code == code) = true
  · rw [if_pos hc] at hgx
    obtain ⟨y, hy, hxy⟩ := Option.map_eq_some'.mp hgx
    obtain ⟨rfl, rfl⟩ := Prod.mk.injEq .. ▸ hxy
    injection hxy with h1 h2
    exact ⟨h1 ▸ hx, h1 ▸ hc, h1 ▸ h2 ▸ hy⟩
  · rw [if_neg hc] at hgx
    cases hgx

/-- Rewriting every ticket with an id/code/order-preserving function and
every order with an id-preserving function rewrites the scan join rows
pointwise. -/
theorem scanRows_map_inward (db : DB) (code : String) (F : Ticket → Ticket)
    (G : Order → Order)
    (hFc : ∀ x, (F x).ticket_code = x.ticket_code)
    (hFo : ∀ x, (F x).order_id = x.order_id)
    (hGi : ∀ x, (G x).id = x.id) :
    scanRows { db with orders := db.orders.map G, tickets := db.tickets.map F }
        code =
      (scanRows db code).map (fun r => (F r.1, G r.2)) := by
  unfold scanRows
  rw [List.filterMap_map, List.map_filterMap]
  have hfun : ((fun t : Ticket =>
      if t.ticket_code == code then
        ((db.orders.map G).find? (fun o => o.id == t.order_id)).map
          (fun o => (t, o))
      else none) ∘ F) =
      (fun x : Ticket =>
        (if x.ticket_code == code then
          (db.orders.find? (fun o => o.id == x.order_id)).map (fun o => (x, o))
        else none).map (fun r : Ticket × Order => (F r.1, G r.2))) := by
    funext x
    simp only [Function.comp_apply, hFc, hFo]
    by_cases hc : (x.ticket_code == code) = true
    · rw [if_pos hc, if_pos hc]
      rw [List.find?_map]
      have hpG : ((fun o : Order => o.id == x.order_id) ∘ G) =
          (fun o : Order => o.id == x.order_id) := by
        funext o
        simp [Function.comp_apply, hGi]
      rw [hpG, Option.map_map, Option.map_map]
      rfl
    · rw [if_neg hc, if_neg hc]
      rfl
  rw [hfun]

/-- C1: if a `POST /api/admin/scan-qr` call succeeds on a ticket code, a
second sequential call with the same code fails with the "already used"
rejection and returns the state of the first call unchanged (order and
ticket untouched). -/
theorem C1_second_scan_rejected (db : DB) (code msg : String) (db₁ : DB)
    (h : scanQr db code = (.ok msg, db₁)) :
    scanQr db₁ code =
      (.err 400 "Mã đã qua sử dụng. Vui lòng đặt đơn hàng mới.", db₁) := by
  unfold scanQr at h
  cases hc : (code == "") with
  | true => rw [hc] at h; exact absurd (congrArg Prod.fst h) (by simp)
  | false =>
  rw [hc] at h
  simp only [Bool.false_eq_true, if_false] at h
  cases hh : (scanRows db code).head? with
  | none => rw [hh] at h; exact absurd (congrArg Prod.fst h) (by simp)
  | some r =>
  obtain ⟨t, o⟩ := r
  simp only [hh] at h
  cases hu : (t.is_used || o.status == "scanned") with
  | true => rw [hu] at h; exact absurd (congrArg Prod.fst h) (by simp)
  | false =>
  rw [hu] at h
  simp only [Bool.false_eq_true, if_false] at h
  cases hp : (o.status == "pending") with
  | true => rw [hp] at h; exact absurd (congrArg Prod.fst h) (by simp)
  | false =>
  rw [hp] at h
  simp only [Bool.false_eq_true, if_false] at h
  cases hcf : (o.status == "confirmed") with
  | true => rw [hcf] at h; exact absurd (congrArg Prod.fst h) (by simp)
  | false =>
  rw [hcf] at h
  simp only [Bool.false_eq_true, if_false] at h
  cases hcp : (o.status == "completed") with
  | true =>
    rw [hcp] at h
    simp only [if_true] at h
    have hdb₁ : db₁ =
        { db with
          orders := db.orders.map (fun x =>
            if x.id == t.order_id then { x with status := "scanned" } else x)
          tickets := db.tickets.map (fun x =>
            if x.id == t.id then { x with is_used := true } else x) } :=
      (congrArg Prod.snd h).symm
    have hrows := scanRows_map_inward db code
      (fun x => if x.id == t.id then { x with is_used := true } else x)
      (fun x => if x.id == t.order_id then { x with status := "scanned" } else x)
      (fun x => by dsimp only; split <;> rfl)
      (fun x => by dsimp only; split <;> rfl)
      (fun x => by dsimp only; split <;> rfl)
    unfold scanQr
    rw [hc]
    simp only [Bool.false_eq_true, if_false]
    rw [hdb₁, hrows, List.head?_map, hh]
    simp only [Option.map_some', beq_self_eq_true, if_true, Bool.true_or]
  | false =>
    rw [hcp] at h
    simp only [Bool.false_eq_true, if_false] at h
    exact absurd (congrArg Prod.fst h) (by simp)

/-- C1 witness: scanning the completed order's ticket `z` in `c1Db`
succeeds; the immediate second scan is rejected as already used, leaving
the state of the first scan unchanged. -/
theorem C1_witness :
    scanQr c1Db' "z" =
      (.err 400 "Mã đã qua sử dụng. Vui lòng đặt đơn hàng mới.", c1Db') :=
  C1_second_scan_rejected c1Db "z"
    "Xác nhận thành công, chúc quý khách ngon miệng!" c1Db' (by decide)

/-- With distinct ticket ids, a ticket of the table is determined by its
id. -/
theorem ticket_id_inj {l : List Ticket} (hnd : (l.map Ticket.id).Nodup)
    {a b : Ticket} (ha : a ∈ l) (hb : b ∈ l) (h : a.id = b.id) : a = b :=
  List.inj_on_of_nodup_map hnd ha hb h

/-- Any of the four ticket-table step shapes keeps used tickets used. -/
theorem ticketStep_usedMono (db db' : DB) (hInv : TicketIdsOk db)
    (hs : TicketStep db db') : usedMono db db' := by
  obtain ⟨hnd, hlt⟩ := hInv
  intro t ht hu t' ht' hid
  rcases hs with ⟨he, _⟩ | ⟨f, hf, _, hfid, hfmono⟩ | ⟨p, hp, _⟩ |
    ⟨nt, hn, hntid, _, _⟩
  · rw [he] at ht'
    exact (ticket_id_inj hnd ht' ht hid) ▸ hu
  · rw [hf] at ht'
    obtain ⟨x, hx, rfl⟩ := List.mem_map.mp ht'
    have hxid : x.id = t.id := by rw [← hfid x]; exact hid
    exact hfmono x ((ticket_id_inj hnd hx ht hxid) ▸ hu)
  · rw [hp] at ht'
    exact (ticket_id_inj hnd (List.mem_of_mem_filter ht') ht hid) ▸ hu
  · rw [hn] at ht'
    rcases List.mem_append.mp ht' with hin | hnew
    · exact (ticket_id_inj hnd hin ht hid) ▸ hu
    · exfalso
      have h1 : t.id < db.nextTicketId := hlt t ht
      rw [← hid, List.mem_singleton.mp hnew, hntid] at h1
      exact lt_irrefl _ h1

/-- Any of the four ticket-table step shapes preserves the id
well-formedness. -/
theorem ticketStep_inv (db db' : DB) (hInv : TicketIdsOk db)
    (hs : TicketStep db db') : TicketIdsOk db' := by
  obtain ⟨hnd, hlt⟩ := hInv
  rcases hs with ⟨he, hn⟩ | ⟨f, hf, hn, hfid, _⟩ | ⟨p, hp, hn⟩ |
    ⟨nt, ha, hntid, _, hn⟩
  · exact ⟨he ▸ hnd, fun t ht => hn ▸ hlt t (he ▸ ht)⟩
  · constructor
    · rw [hf, List.map_map]
      have hco : (Ticket.id ∘ f) = Ticket.id := funext fun x => hfid x
      rw [hco]; exact hnd
    · intro t ht
      rw [hf] at ht
      obtain ⟨x, hx, rfl⟩ := List.mem_map.mp ht
      rw [hn, hfid]; exact hlt x hx
  · constructor
    · rw [hp]
      exact List.Nodup.sublist ((List.filter_sublist _).map _) hnd
    · intro t ht
      rw [hp] at ht
      rw [hn]
      exact hlt t (List.mem_of_mem_filter ht)
  · constructor
    · rw [ha, List.map_append]
      rw [List.nodup_append]
      refine ⟨hnd, List.nodup_singleton _, ?_⟩
      intro a hal har
      obtain ⟨x, hx, rfl⟩ := List.mem_map.mp hal
      have hxr : x.id = nt.id := by simpa using har
      have hlt' := hlt x hx
      rw [hxr, hntid] at hlt'
      exact lt_irrefl _ hlt'
    · intro t ht
      rw [ha] at ht
      rw [hn]
      rcases List.mem_append.mp ht with h1 | h2
      · exact lt_trans (hlt t h1) (Nat.lt_succ_self _)
      · rw [List.mem_singleton.mp h2, hntid]
        exact Nat.lt_succ_self _

/-- The tail of `POST /api/payments` either leaves the ticket table alone
or appends the backfilled fresh unused ticket at the auto-increment id. -/
theorem recordPaymentInsert_tickets (db : DB) (oid : Nat) (m : String)
    (a : Int) (ts : String) :
    ((recordPaymentInsert db oid m a ts).2.tickets = db.tickets ∧
     (recordPaymentInsert db oid m a ts).2.nextTicketId = db.nextTicketId) ∨
    ((recordPaymentInsert db oid m a ts).2.tickets = db.tickets ++
       [{ id := db.nextTicketId, order_id := oid
          ticket_code := "TICKET_" ++ toString oid ++ "_" ++ ts
          is_used := false }] ∧
     (recordPaymentInsert db oid m a ts).2.nextTicketId = db.nextTicketId + 1) := by
  unfold recordPaymentInsert
  dsimp only
  repeat' split
  all_goals first
    | exact Or.inl ⟨rfl, rfl⟩
    | exact Or.inr ⟨rfl, rfl⟩

/-- Every modelled request performs one of the four ticket-table step
shapes. -/
theorem applyOp_ticketStep (hmacSha512 : String → String → String)
    (secret : String) (db : DB) (op : Op) :
    TicketStep db (applyOp hmacSha512 secret db op) := by
  cases op with
  | addFood n p c =>
    simp only [applyOp]
    unfold addFood
    split <;> exact Or.inl ⟨rfl, rfl⟩
  | updateFood i n p c =>
    simp only [applyOp]
    unfold updateFood
    repeat' split
    all_goals exact Or.inl ⟨rfl, rfl⟩
  | deleteFood i =>
    simp only [applyOp]
    unfold deleteFood
    split <;> exact Or.inl ⟨rfl, rfl⟩
  | createOrder uid items code =>
    simp only [applyOp]
    unfold createOrder
    repeat' split
    all_goals first
      | exact Or.inl ⟨rfl, rfl⟩
      | exact Or.inr (Or.inr (Or.inr ⟨_, rfl, rfl, rfl, rfl⟩))
  | createOrderVariant uid items code =>
    simp only [applyOp]
    unfold createOrderVariant
    repeat' split
    all_goals first
      | exact Or.inl ⟨rfl, rfl⟩
      | exact Or.inr (Or.inr (Or.inr ⟨_, rfl, rfl, rfl, rfl⟩))
  | recordPayment uid oid m a ts =>
    simp only [applyOp]
    unfold recordPayment
    repeat' split
    all_goals try dsimp only
    all_goals first
      | exact Or.inl ⟨rfl, rfl⟩
      | (rcases recordPaymentInsert_tickets _ oid m a ts with ⟨h1, h2⟩ | ⟨h1, h2⟩ <;>
          first
            | exact Or.inl ⟨h1, h2⟩
            | exact Or.inr (Or.inr (Or.inr ⟨_, h1, rfl, rfl, h2⟩)))
  | recordPaymentVariant uid oid m a txn =>
    simp only [applyOp]
    unfold recordPaymentVariant
    repeat' split
    all_goals exact Or.inl ⟨rfl, rfl⟩
  | confirmCashPayment pid =>
    simp only [applyOp]
    unfold confirmCashPayment
    repeat' split
    all_goals exact Or.inl ⟨rfl, rfl⟩
  | ticketsVerify code =>
    simp only [applyOp]
    unfold ticketsVerify
    repeat' split
    all_goals first
      | exact Or.inl ⟨rfl, rfl⟩
      | exact Or.inr (Or.inl ⟨_, rfl, rfl,
          fun x => by try dsimp only
                      split <;> rfl,
          fun x hx => by try dsimp only
                         split <;> simp [hx]⟩)
  | scanQr code =>
    simp only [applyOp]
    unfold scanQr
    repeat' split
    all_goals first
      | exact Or.inl ⟨rfl, rfl⟩
      | exact Or.inr (Or.inl ⟨_, rfl, rfl,
          fun x => by try dsimp only
                      split <;> rfl,
          fun x hx => by try dsimp only
                         split <;> simp [hx]⟩)
  | updateOrderStatus oid status =>
    simp only [applyOp]
    unfold updateOrderStatus
    repeat' split
    all_goals exact Or.inl ⟨rfl, rfl⟩
  | cancelOrder uid oid =>
    simp only [applyOp]
    unfold cancelOrder
    repeat' split
    all_goals first
      | exact Or.inl ⟨rfl, rfl⟩
      | exact Or.inr (Or.inr (Or.inl ⟨_, rfl, rfl⟩))
  | softCancelOrder uid oid =>
    simp only [applyOp]
    unfold softCancelOrder
    repeat' split
    all_goals exact Or.inl ⟨rfl, rfl⟩
  | vnpayReturn params =>
    simp only [applyOp]
    unfold vnpayReturn
    dsimp only
    repeat' split
    all_goals exact Or.inl ⟨rfl, rfl⟩

/-- The first row of the verify join comes from an unused ticket with the
scanned code, paired with the first payment of its order. -/
theorem verifyRows_head_spec (db : DB) (code : String) (t0 : Ticket)
    (p : Payment) (h : (verifyRows db code).head? = some (t0, p)) :
    t0 ∈ db.tickets ∧ (t0.ticket_code == code) = true ∧ t0.is_used = false ∧
      (paymentsFor db t0.order_id).head? = some p := by
  have hmem : (t0, p) ∈ verifyRows db code := by
    cases hl : verifyRows db code with
    | nil => rw [hl] at h; cases h
    | cons a rest =>
      rw [hl] at h
      injection h with h
      exact h ▸ List.mem_cons_self a rest
  obtain ⟨x, hx, hgx⟩ := List.mem_filterMap.mp hmem
  by_cases hcu : (x.ticket_code == code && !x.is_used) = true
  · rw [if_pos hcu] at hgx
    obtain ⟨y, hy, hxy⟩ := Option.map_eq_some'.mp hgx
    injection hxy with h1 h2
    obtain ⟨hcode, hused⟩ : (x.ticket_code == code) = true ∧ x.is_used = false := by
      simpa using hcu
    exact ⟨h1 ▸ hx, h1 ▸ hcode, h1 ▸ hused, h1 ▸ h2 ▸ hy⟩
  · rw [if_neg hcu] at hgx
    cases hgx

/-- A ticket flipped from unused to used by one `POST /api/admin/scan-qr`
call belongs to an order whose status was `completed` in the pre-state. -/
theorem scanQr_flip_completed (db : DB) (code : String)
    (hnd : (db.tickets.map Ticket.id).Nodup)
    (t : Ticket) (ht : t ∈ db.tickets) (hun : t.is_used = false)
    (t' : Ticket) (ht' : t' ∈ (scanQr db code).2.tickets) (hid : t'.id = t.id)
    (hu' : t'.is_used = true) :
    orderStatusOf db t.order_id = some "completed" := by
  have contra : t' ∈ db.tickets → False := fun hmem => by
    have he := ticket_id_inj hnd hmem ht hid
    rw [he, hun] at hu'
    cases hu'
  unfold scanQr at ht'
  cases hc : (code == "") with
  | true => rw [hc] at ht'; exact absurd ht' contra
  | false =>
  rw [hc] at ht'
  simp only [Bool.false_eq_true, if_false] at ht'
  cases hrow : (scanRows db code).head? with
  | none => rw [hrow] at ht'; exact absurd ht' contra
  | some r =>
  obtain ⟨t₀, o₀⟩ := r
  simp only [hrow] at ht'
  cases hused : (t₀.is_used || o₀.status == "scanned") with
  | true => rw [hused] at ht'; exact absurd ht' contra
  | false =>
  rw [hused] at ht'
  simp only [Bool.false_eq_true, if_false] at ht'
  cases hpend : (o₀.status == "pending") with
  | true => rw [hpend] at ht'; exact absurd ht' contra
  | false =>
  rw [hpend] at ht'
  simp only [Bool.false_eq_true, if_false] at ht'
  cases hconf : (o₀.status == "confirmed") with
  | true => rw [hconf] at ht'; exact absurd ht' contra
  | false =>
  rw [hconf] at ht'
  simp only [Bool.false_eq_true, if_false] at ht'
  cases hcomp : (o₀.status == "completed") with
  | false => rw [hcomp] at ht'; exact absurd ht' contra
  | true =>
  rw [hcomp] at ht'
  simp only [if_true] at ht'
  obtain ⟨x, hx, hfx⟩ := List.mem_map.mp ht'
  have hxid : x.id = t.id := by
    rw [← hid, ← hfx]
    try dsimp only
    split <;> rfl
  have hxt : x = t := ticket_id_inj hnd hx ht hxid
  subst hxt
  by_cases hk : (x.id == t₀.id) = true
  · obtain ⟨ht₀, _, hfind⟩ := scanRows_head_spec db code t₀ o₀ hrow
    have hxt₀ : x = t₀ := ticket_id_inj hnd hx ht₀ (beq_iff_eq.mp hk)
    have hstat : o₀.status = "completed" := beq_iff_eq.mp hcomp
    unfold orderStatusOf
    rw [hxt₀, hfind, Option.map_some', hstat]
  · exfalso
    rw [← hfx] at hu'
    try dsimp only at hu'
    rw [if_neg hk] at hu'
    rw [hun] at hu'
    cases hu'

/-- A ticket flipped from unused to used by one `POST /api/tickets/verify`
call shares its code with an unused ticket whose order's first payment was
`completed` in the pre-state (the order's own status is not consulted). -/
theorem ticketsVerify_flip_payment (db : DB) (code : String)
    (hnd : (db.tickets.map Ticket.id).Nodup)
    (t : Ticket) (ht : t ∈ db.tickets) (hun : t.is_used = false)
    (t' : Ticket) (ht' : t' ∈ (ticketsVerify db code).2.tickets)
    (hid : t'.id = t.id) (hu' : t'.is_used = true) :
    ∃ t0 ∈ db.tickets, t0.ticket_code = t.ticket_code ∧ t0.is_used = false ∧
      ∃ p, (paymentsFor db t0.order_id).head? = some p ∧
        p.status = "completed" := by
  have contra : t' ∈ db.tickets → False := fun hmem => by
    have he := ticket_id_inj hnd hmem ht hid
    rw [he, hun] at hu'
    cases hu'
  unfold ticketsVerify at ht'
  cases hc : (code == "") with
  | true => rw [hc] at ht'; exact absurd ht' contra
  | false =>
  rw [hc] at ht'
  simp only [Bool.false_eq_true, if_false] at ht'
  cases hrow : (verifyRows db code).head? with
  | none => rw [hrow] at ht'; exact absurd ht' contra
  | some r =>
  obtain ⟨t₀, p₀⟩ := r
  simp only [hrow] at ht'
  cases hpc : (p₀.status == "completed") with
  | false =>
    rw [show (!(p₀.status == "completed")) = true from by rw [hpc]; rfl] at ht'
    exact absurd ht' contra
  | true =>
  rw [show (!(p₀.status == "completed")) = false from by rw [hpc]; rfl] at ht'
  simp only [Bool.false_eq_true, if_false] at ht'
  obtain ⟨x, hx, hfx⟩ := List.mem_map.mp ht'
  have hxid : x.id = t.id := by
    rw [← hid, ← hfx]
    try dsimp only
    split <;> rfl
  have hxt : x = t := ticket_id_inj hnd hx ht hxid
  subst hxt
  by_cases hk : (x.ticket_code == code) = true
  · obtain ⟨ht₀, hcode₀, hunused₀, hpay₀⟩ :=
      verifyRows_head_spec db code t₀ p₀ hrow
    have hps : p₀.status = "completed" := beq_iff_eq.mp hpc
    refine ⟨t₀, ht₀, ?_, hunused₀, p₀, hpay₀, hps⟩
    rw [beq_iff_eq.mp hcode₀, beq_iff_eq.mp hk]
  · exfalso
    rw [← hfx] at hu'
    try dsimp only at hu'
    rw [if_neg hk] at hu'
    rw [hun] at hu'
    cases hu'

/-- C2 (amended): over every state whose ticket ids are distinct and
below the auto-increment counter — a well-formedness every operation
preserves, as proved here — every operation keeps a used ticket used
(`is_used` never reverts). A `scan-qr` call flips a ticket to used only
when its order's status is `completed`, but a `tickets/verify` call flips
a ticket to used based on its order's first payment being `completed`,
without consulting the order's status. -/
theorem C2_is_used_monotonic (hmacSha512 : String → String → String)
    (secret : String) (db : DB) (hInv : TicketIdsOk db) :
    (∀ op : Op, usedMono db (applyOp hmacSha512 secret db op) ∧
      TicketIdsOk (applyOp hmacSha512 secret db op)) ∧
    (∀ (code : String) (t : Ticket), t ∈ db.tickets → t.is_used = false →
      ∀ t' ∈ (scanQr db code).2.tickets, t'.id = t.id → t'.is_used = true →
        orderStatusOf db t.order_id = some "completed") ∧
    (∀ (code : String) (t : Ticket), t ∈ db.tickets → t.is_used = false →
      ∀ t' ∈ (ticketsVerify db code).2.tickets, t'.id = t.id →
        t'.is_used = true →
        ∃ t0 ∈ db.tickets, t0.ticket_code = t.ticket_code ∧
          t0.is_used = false ∧
          ∃ p, (paymentsFor db t0.order_id).head? = some p ∧
            p.status = "completed") :=
  ⟨fun op =>
    ⟨ticketStep_usedMono db _ hInv (applyOp_ticketStep hmacSha512 secret db op),
     ticketStep_inv db _ hInv (applyOp_ticketStep hmacSha512 secret db op)⟩,
   fun code t ht hun t' ht' hid hu' =>
     scanQr_flip_completed db code hInv.1 t ht hun t' ht' hid hu',
   fun code t ht hun t' ht' hid hu' =>
     ticketsVerify_flip_payment db code hInv.1 t ht hun t' ht' hid hu'⟩

/-- C2 counterexample: `c2Db` is reached from the empty store by the four
requests of `c2Trace`; there order 1 is `confirmed` — not `completed` —
while its payment is `completed`, and `POST /api/tickets/verify`
nevertheless sets the ticket's `is_used` to true. So an operation can set
`is_used` on a reachable state whose order status is not `completed`,
contradicting the claim. -/
theorem C2_counterexample :
    applyOps hmac0 "" initDB c2Trace = c2Db ∧
    c2Db.tickets =
      [{ id := 1, order_id := 1, ticket_code := "c1", is_used := false }] ∧
    orderStatusOf c2Db 1 = some "confirmed" ∧
    (ticketsVerify c2Db "c1").2.tickets =
      [{ id := 1, order_id := 1, ticket_code := "c1", is_used := true }] := by
  refine ⟨rfl, by decide, by decide, by decide⟩

/-- C2 witness: `c1Db` satisfies the ticket-id well-formedness, and the
amended theorem applied there yields monotonicity across a concrete scan
request. -/
theorem C2_witness :
    TicketIdsOk c1Db ∧
    usedMono c1Db (applyOp hmac0 "" c1Db (.scanQr "z")) :=
  ⟨by decide,
   ((C2_is_used_monotonic hmac0 "" c1Db (by decide)).1 (.scanQr "z")).1⟩

/-- The `.sort()` comparator is total. -/
theorem codePointLe_total :
    ∀ as bs : List Char, (codePointLe as bs || codePointLe bs as) = true := by
  intro as
  induction as with
  | nil => intro bs; simp [codePointLe]
  | cons a as ih =>
    intro bs
    cases bs with
    | nil => simp [codePointLe]
    | cons b bs =>
      simp only [codePointLe]
      by_cases h1 : a.toNat < b.toNat
      · simp [h1]
      · by_cases h2 : b.toNat < a.toNat
        · simp [h1, h2]
        · simp [h1, h2, ih bs]

/-- The `.sort()` comparator is transitive. -/
theorem codePointLe_trans :
    ∀ as bs cs : List Char, codePointLe as bs = true →
      codePointLe bs cs = true → codePointLe as cs = true := by
  intro as
  induction as with
  | nil => intro bs cs _ _; simp [codePointLe]
  | cons a as ih =>
    intro bs cs h1 h2
    cases bs with
    | nil => simp [codePointLe] at h1
    | cons b bs =>
      cases cs with
      | nil => simp [codePointLe] at h2
      | cons c cs =>
        simp only [codePointLe] at h1 h2 ⊢
        by_cases hab : a.toNat < b.toNat
        · rw [if_pos hab] at h1
          by_cases hbc : b.toNat < c.toNat
          · rw [if_pos (show a.toNat < c.toNat by omega)]
          · rw [if_neg hbc] at h2
            by_cases hcb : c.toNat < b.toNat
            · rw [if_pos hcb] at h2; cases h2
            · rw [if_pos (show a.toNat < c.toNat by omega)]
        · rw [if_neg hab] at h1
          by_cases hba : b.toNat < a.toNat
          · rw [if_pos hba] at h1; cases h1
          · rw [if_neg hba] at h1
            by_cases hbc : b.toNat < c.toNat
            · rw [if_pos (show a.toNat < c.toNat by omega)]
            · rw [if_neg hbc] at h2
              by_cases hcb : c.toNat < b.toNat
              · rw [if_pos hcb] at h2; cases h2
              · rw [if_neg hcb] at h2
                rw [if_neg (show ¬ a.toNat < c.toNat by omega),
                  if_neg (show ¬ c.toNat < a.toNat by omega)]
                exact ih bs cs h1 h2

/-- With unique object keys, filtering the key list through `params[key]`
lookups is filtering the entries themselves. -/
theorem keysFilter_eq :
    ∀ params : List (String × Option String), (params.map Prod.fst).Nodup →
      (params.map Prod.fst).filter (fun k =>
        !(k == "vnp_SecureHash") && !(k == "vnp_SecureHashType") &&
        paramPresent params k) =
      (params.filter (fun kv =>
        !(kv.1 == "vnp_SecureHash") && !(kv.1 == "vnp_SecureHashType") &&
        (!(kv.2 == some "") && !(kv.2 == (none : Option String))))).map
        Prod.fst := by
  intro params
  induction params with
  | nil => intro _; rfl
  | cons kv rest ih =>
    intro hnd
    obtain ⟨k, v⟩ := kv
    simp only [List.map_cons, List.nodup_cons] at hnd
    obtain ⟨hknot, hndr⟩ := hnd
    have hcong : ∀ k' ∈ rest.map Prod.fst,
        (!(k' == "vnp_SecureHash") && !(k' == "vnp_SecureHashType") &&
         paramPresent ((k, v) :: rest) k') =
        (!(k' == "vnp_SecureHash") && !(k' == "vnp_SecureHashType") &&
         paramPresent rest k') := by
      intro k' hk'
      have hne : ¬ (k' == k) = true := fun hb =>
        hknot (beq_iff_eq.mp hb ▸ hk')
      have hpp : paramPresent ((k, v) :: rest) k' = paramPresent rest k' := by
        unfold paramPresent
        rw [List.lookup_cons]
        have : (k' == k) = false := Bool.not_eq_true _ ▸ hne
        rw [this]
      rw [hpp]
    have hhead : (!(k == "vnp_SecureHash") && !(k == "vnp_SecureHashType") &&
        paramPresent ((k, v) :: rest) k) =
        (!(k == "vnp_SecureHash") && !(k == "vnp_SecureHashType") &&
         (!(v == some "") && !(v == (none : Option String)))) := by
      have hself : List.lookup k ((k, v) :: rest) = some v := by
        rw [List.lookup_cons]
        rw [show (k == k) = true from beq_self_eq_true k]
      cases v with
      | none => simp [paramPresent, hself]
      | some s => simp [paramPresent, hself]
    simp only [List.map_cons, List.filter_cons]
    rw [List.filter_congr hcong, ih hndr, hhead,
      apply_ite (List.map Prod.fst), List.map_cons]

/-- C9: callback signing (`isCallback = true`) serializes exactly the
parameter entries that are not the signature fields and not empty/null, in
lexicographically sorted key order (`.sort()`), as `key=vnpEncode(value)`
joined by `&`, with a space encoding to `+`; outbound signing
(`isCallback = false`) instead follows the fixed canonical key order; and
the signature is the HMAC-SHA512 of that string under the secret key. -/
theorem C9_callback_signature_shape (params : List (String × Option String))
    (hnd : (params.map Prod.fst).Nodup) :
    List.Sorted strLeRel (vnpOrderedKeys params true) ∧
    (vnpOrderedKeys params true).Perm
      ((params.filter (fun kv =>
        !(kv.1 == "vnp_SecureHash") && !(kv.1 == "vnp_SecureHashType") &&
        (!(kv.2 == some "") && !(kv.2 == (none : Option String))))).map
        Prod.fst) ∧
    vnpSignData params true =
      String.intercalate "&" ((vnpOrderedKeys params true).map (fun k =>
        k ++ "=" ++ vnpEncode (paramVal params k))) ∧
    vnpEncode " " = "+" ∧
    (vnpOrderedKeys params false).Sublist canonicalVnpKeys ∧
    (∀ (hmacSha512 : String → String → String) (secret : String) (cb : Bool),
      createVnpaySignature hmacSha512 params secret cb =
        hmacSha512 secret (vnpSignData params cb)) := by
  refine ⟨?_, ?_, rfl, by decide, List.filter_sublist _, fun _ _ _ => rfl⟩
  · have htot : IsTotal String strLeRel :=
      ⟨fun a b => by
        unfold strLeRel strLe
        have := codePointLe_total a.data b.data
        rcases Bool.or_eq_true_iff.mp this with h | h
        · exact Or.inl h
        · exact Or.inr h⟩
    have htrans : IsTrans String strLeRel :=
      ⟨fun a b c h1 h2 => codePointLe_trans a.data b.data c.data h1 h2⟩
    exact @List.sorted_insertionSort String strLeRel _ htot htrans _
  · have hperm := List.perm_insertionSort strLeRel
      ((params.map Prod.fst).filter (fun k =>
        !(k == "vnp_SecureHash") && !(k == "vnp_SecureHashType") &&
        paramPresent params k))
    rw [← keysFilter_eq params hnd]
    exact hperm

/-- C9 witness: a concrete parameter object (keys out of order, one empty
value, both signature fields) whose callback key list comes out sorted,
empty-value- and signature-free. -/
theorem C9_witness :
    (c9Params.map Prod.fst).Nodup ∧
    vnpOrderedKeys c9Params true =
      ["vnp_Amount", "vnp_OrderInfo", "vnp_TxnRef"] ∧
    (vnpOrderedKeys c9Params true).Perm
      ((c9Params.filter (fun kv =>
        !(kv.1 == "vnp_SecureHash") && !(kv.1 == "vnp_SecureHashType") &&
        (!(kv.2 == some "") && !(kv.2 == (none : Option String))))).map
        Prod.fst) :=
  ⟨by decide, by decide,
   (C9_callback_signature_shape c9Params (by decide)).2.1⟩

end FastOrder
